import Mathlib

/-!
Shallow embedding of the SALON BOARD style-posting automation engine
(`app/automation/salon_board_poster.py`, with the task-layer progress
callback of `app/tasks/style_post_task.py`).

The browser, the third-party pages and the filesystem are external,
non-deterministic collaborators; they are modelled by oracle functions
bundled in `RunEnv`.  Each Python function that only orchestrates
control flow is embedded as a Lean function over those oracles;
sequences of primitive page actions whose individual identity never
influences `run`'s control flow are collapsed to their observable
outcome (success / raised exception / robot-detection trigger), with a
comment mapping each case to the source lines it embeds.
-/

namespace SalonBoard

/-- One dataset row, restricted to the fields `run` itself reads:
`画像名` (image file name, line 438) and `スタイル名` (style name,
line 458).  `none` models a missing column; an empty string models a
falsy cell (Python `if not image_filename`, line 439). -/
structure StyleRow where
  imageName : Option String
  styleName : Option String
deriving Repr, DecidableEq

/-- A row of the multi-store salon-selection table
(`step_login`, lines 230-234): the text contents of the id cell and the
name cell. -/
structure SalonRow where
  salonId : String
  salonName : String
deriving Repr, DecidableEq

/-- The `salon_info` dict passed to `step_login` (lines 184, 237-238):
optional id and name strings.  `none` models an absent/None entry. -/
structure SalonInfo where
  id : Option String
  name : Option String
deriving Repr, DecidableEq

/-- Python truthiness of `salon_info.get("id")` / `.get("name")`:
false for a missing key, None, or the empty string. -/
def truthy : Option String → Bool
  | none => false
  | some s => !s.isEmpty

/-- The decimal digit characters, as in the base-10 case of Python
string formatting of an int. -/
def decDigitChar : Nat → Char
  | 0 => Char.ofNat 48 | 1 => Char.ofNat 49 | 2 => Char.ofNat 50
  | 3 => Char.ofNat 51 | 4 => Char.ofNat 52 | 5 => Char.ofNat 53
  | 6 => Char.ofNat 54 | 7 => Char.ofNat 55 | 8 => Char.ofNat 56
  | _ => Char.ofNat 57

/-- Base-10 digit rendering with explicit fuel (structural recursion,
so that terms reduce definitionally); the fuel is always at least the
value, so the fuel-exhausted arm is never reached on valid calls. -/
def decDigitsAux : Nat → Nat → List Char
  | 0, n => [decDigitChar n]
  | fuel + 1, n =>
    if n < 10 then [decDigitChar n]
    else decDigitsAux fuel (n / 10) ++ [decDigitChar (n % 10)]

/-- Base-10 digit list of a natural number, most significant first. -/
def decDigits (n : Nat) : List Char := decDigitsAux n n

/-- The base-10 rendering of a natural number: the embedding of
Python's `str(idx)` / f-string interpolation of the pandas row index
(an int) at line 453 (`f"error_row_{idx}"`). -/
def decRepr (n : Nat) : String := ⟨decDigits n⟩

/-- The row-matching condition of the salon-selection loop
(lines 237-238): `(salon_info.get("id") and row_salon_id ==
salon_info["id"]) or (salon_info.get("name") and row_salon_name ==
salon_info["name"])`. -/
def matchesSalon (info : SalonInfo) (r : SalonRow) : Bool :=
  (truthy info.id && r.salonId == info.id.getD "")
    || (truthy info.name && r.salonName == info.name.getD "")

/-- The salon-selection scan (lines 230-245): iterate the listed rows
in order, click the first row satisfying `matchesSalon`; the loop's
`else` clause raises `RuntimeError` when no row matched. -/
def selectSalon (rows : List SalonRow) (info : SalonInfo) :
    Except String SalonRow :=
  match rows.find? (matchesSalon info) with
  | some r => .ok r
  | none => .error "Salon not found"

/-- Modelled from the spec claim wording (C7), for comparison with
`selectSalon`: select "by exact id-match first, falling back to exact
name-match only when no row's id matches the hint". -/
def selectSalonSpec (rows : List SalonRow) (info : SalonInfo) :
    Except String SalonRow :=
  match rows.find? (fun r => truthy info.id && r.salonId == info.id.getD "") with
  | some r => .ok r
  | none =>
    match rows.find?
        (fun r => truthy info.name && r.salonName == info.name.getD "") with
    | some r => .ok r
    | none => .error "Salon not found"

/-- Observable outcome of one `_click_and_wait` call (lines 165-182):
either the click/wait itself raises (`pageError`), or the page settles
and `_check_robot_detection` returns true (lines 181-182, raising
`RuntimeError("Robot detection triggered")`), or everything passes. -/
inductive ClickEvent where
  | ok
  | pageError (msg : String)
  | robotDetected
deriving Repr, DecidableEq

/-- `_click_and_wait` (lines 165-182) given its observable event. -/
def click_and_wait : ClickEvent → Except String Unit
  | .ok => .ok ()
  | .pageError m => .error m
  | .robotDetected => .error "Robot detection triggered"

/-- External behaviour met by `step_login` (lines 184-250), in source
order: the detection guard right after `goto` of the login url
(lines 204-205); the id/password `fill` calls (lines 212-213, collapsed
to an optional raised message); the `_click_and_wait` of the login
button (line 215); whether the salon-selection table is present
(line 219) and its rows (line 230); the click/settle of the matched
row's link (lines 240-241, optional raised message); the final
`wait_for_selector` of the dashboard landmark (line 249, optional
timeout message). -/
structure LoginEnv where
  robotOnLoginPage : Bool
  fillError : Option String
  loginClick : ClickEvent
  salonTablePresent : Bool
  salonRows : List SalonRow
  salonClickError : Option String
  dashboardWaitError : Option String
deriving Repr

/-- `step_login` (lines 184-250) over its external behaviour. -/
def step_login (env : LoginEnv) (salonInfo : Option SalonInfo) :
    Except String Unit :=
  if env.robotOnLoginPage then .error "Robot detection on login page"
  else
    match env.fillError with
    | some m => .error m
    | none =>
      match click_and_wait env.loginClick with
      | .error m => .error m
      | .ok _ =>
        let finish : Except String Unit :=
          match env.dashboardWaitError with
          | some m => .error m
          | none => .ok ()
        if env.salonTablePresent then
          match salonInfo with
          | none => .error "Salon selection required but no salon_info provided"
          | some info =>
            match selectSalon env.salonRows info with
            | .error m => .error m
            | .ok _ =>
              match env.salonClickError with
              | some m => .error m
              | none => finish
        else finish

/-- External behaviour met by `step_process_single_style`
(lines 273-377) for one row, in source order: the `_click_and_wait` of
the new-style button (line 290); the whole image-upload / form-fill /
category / coupon / hashtag block (lines 293-363, a sequence of page
actions collapsed to the first raised message, if any); the
`_click_and_wait` of the register button (line 367); the
`wait_for_selector` of the completion marker (line 371); the
`_click_and_wait` of the back-to-list button (line 375). -/
structure RowEnv where
  newStyleClick : ClickEvent
  formActions : Option String
  registerClick : ClickEvent
  completeWaitError : Option String
  backClick : ClickEvent
deriving Repr

/-- `step_process_single_style` (lines 273-377) over its external
behaviour. -/
def step_process_single_style (env : RowEnv) : Except String Unit :=
  match click_and_wait env.newStyleClick with
  | .error m => .error m
  | .ok _ =>
    match env.formActions with
    | some m => .error m
    | none =>
      match click_and_wait env.registerClick with
      | .error m => .error m
      | .ok _ =>
        match env.completeWaitError with
        | some m => .error m
        | none => click_and_wait env.backClick

/-- An entry of `results["errors"]`: the per-row shape appended at
lines 456-461 (`row`, `style_name`, `error`, `screenshot`) or the
critical shape appended at lines 475-478 (`error`, `screenshot`). -/
inductive ErrorRecord where
  | rowError (row : Nat) (styleName : String) (error : String)
      (screenshot : String)
  | critical (error : String) (screenshot : String)
deriving Repr, DecidableEq

/-- The `results` dict of `run` (lines 400-406). -/
structure RunResult where
  success : Bool
  total : Nat
  completed : Nat
  failed : Nat
  errors : List ErrorRecord
deriving Repr, DecidableEq

/-- The arguments of `run` that are plain data: the screenshot
directory (constructor, line 44), the image directory (line 442), the
salon selection info and the resume offset `start_from_row`
(lines 385-386). -/
structure RunConfig where
  screenshotDir : String
  imageDir : String
  salonInfo : Option SalonInfo
  startFromRow : Nat
deriving Repr

/-- All external non-determinism met by one `run` invocation:
whether `_start_browser` raises (line 410); the login environment
(line 413); the outcome of loading the dataset file (lines 416-419);
the two navigation `_click_and_wait`s of
`step_navigate_to_style_list_page` (lines 264-269); each row's page
behaviour, by positional row index (line 447); the filesystem check
`image_path.exists()` (line 443); for the k-th `_take_screenshot` call
of the run, whether `page.screenshot` raises (line 102) and the
timestamp string `datetime.now().strftime("%Y%m%d_%H%M%S")` (line 97);
the progress callback, `none` when absent, else a function of the
invocation index and the `(completed, total)` arguments (lines 429-430,
467-468). -/
structure RunEnv where
  browserStartError : Option String
  login : LoginEnv
  datasetLoad : Except String (List StyleRow)
  navClick1 : ClickEvent
  navClick2 : ClickEvent
  rowEnv : Nat → RowEnv
  imageExists : String → Bool
  screenshotError : Nat → Option String
  timestamp : Nat → String
  callback : Option (Nat → Nat → Nat → Bool)

/-- `step_navigate_to_style_list_page` (lines 252-271): two
`_click_and_wait` hops. -/
def step_navigate (env : RunEnv) : Except String Unit :=
  match click_and_wait env.navClick1 with
  | .error m => .error m
  | .ok _ => click_and_wait env.navClick2

/-- `_take_screenshot` (lines 88-105) for the k-th call of the run:
the timestamp and filename are computed unconditionally (lines 97-99);
the `page.screenshot` call happens only when a page exists (line 101)
and may itself raise (uncaught, line 102); the path is returned
otherwise (line 105). -/
def take_screenshot (cfg : RunConfig) (env : RunEnv) (pageLive : Bool)
    (k : Nat) (pre : String) : Except String String :=
  let filepath := cfg.screenshotDir ++ "/" ++ pre ++ "_"
      ++ env.timestamp k ++ ".png"
  if pageLive then
    match env.screenshotError k with
    | some m => .error m
    | none => .ok filepath
  else .ok filepath

/-- The body of the per-row `try` block up to and including the
`step_process_single_style` call (lines 435-447): read `画像名`
(raising `ValueError` when falsy, lines 438-440), check the image file
exists (raising `FileNotFoundError`, lines 442-444), then run the
per-row step script.  The returned `Bool` is instrumentation: whether
`step_process_single_style` was invoked for this row. -/
def processRow (cfg : RunConfig) (env : RunEnv) (idx : Nat)
    (row : StyleRow) : Bool × Except String Unit :=
  match row.imageName with
  | none => (false, .error "\x27画像名\x27 column not specified in data")
  | some nm =>
    if nm.isEmpty then
      (false, .error "\x27画像名\x27 column not specified in data")
    else if env.imageExists nm then
      (true, step_process_single_style (env.rowEnv idx))
    else
      (false, .error ("Image not found: " ++ cfg.imageDir ++ "/" ++ nm))

/-- The mutable state threaded through the row loop: the `completed`,
`failed` and `errors` fields of `results`, the number of
`_take_screenshot` calls made so far (`shots`), and two pieces of
instrumentation: the row indices for which `step_process_single_style`
was invoked (`attempted`) and the argument pairs of the progress
callback invocations so far (`reported`). -/
structure LoopSt where
  completed : Nat
  failed : Nat
  errors : List ErrorRecord
  shots : Nat
  attempted : List Nat
  reported : List (Nat × Nat)
deriving Repr, DecidableEq

/-- How the row loop (lines 427-464) ended: fell off the end of the
dataset, broke because the callback returned false (lines 430-432), or
an exception escaped it (only a failing `page.screenshot` inside the
row-level handler can do that, line 453). -/
inductive LoopExit where
  | done (st : LoopSt)
  | interrupted (st : LoopSt)
  | fatal (msg : String) (st : LoopSt)
deriving Repr, DecidableEq

/-- The state carried by a `LoopExit`. -/
def LoopExit.state : LoopExit → LoopSt
  | .done st => st
  | .interrupted st => st
  | .fatal _ st => st

/-- Result of the cancellation gate at the top of one loop iteration:
continue with the updated state, or break out of the loop. -/
inductive GateRes where
  | go (st : LoopSt)
  | stop (st : LoopSt)
deriving Repr, DecidableEq

/-- The cancellation check at the top of each loop iteration
(lines 429-432): when a callback is installed it is invoked with
`(results["completed"], results["total"])` — the invocation index
being the number of previous invocations — and a false return breaks
the loop. -/
def cbGate (env : RunEnv) (total : Nat) (st : LoopSt) : GateRes :=
  match env.callback with
  | none => .go st
  | some cb =>
    let st' := { st with reported := st.reported ++ [(st.completed, total)] }
    if cb st.reported.length st.completed total then .go st' else .stop st'

/-- The per-row `try`/`except` body (lines 434-464): run the row; on
success `completed += 1` (line 449); on a row-level exception take the
row screenshot (line 453, whose own failure escapes as `.error`), then
`failed += 1` and append the error record (lines 455-461). -/
def rowIter (cfg : RunConfig) (env : RunEnv) (pageLive : Bool)
    (idx : Nat) (row : StyleRow) (st : LoopSt) :
    Except (String × LoopSt) LoopSt :=
  match processRow cfg env idx row with
  | (att, out) =>
    let st := if att then { st with attempted := st.attempted ++ [idx] }
              else st
    match out with
    | .ok _ => .ok { st with completed := st.completed + 1 }
    | .error e =>
      match take_screenshot cfg env pageLive st.shots
          ("error_row_" ++ decRepr idx) with
      | .error m => .error (m, { st with shots := st.shots + 1 })
      | .ok path =>
        .ok { st with
          shots := st.shots + 1
          failed := st.failed + 1
          errors := st.errors ++ [.rowError idx
            ((row.styleName).getD "Unknown") e path] }

/-- The row loop of `run` (lines 427-464) over the rows
`df.iloc[start_from_row:]`, with `idx` the positional index of the
head row (pandas keeps the original labels of a default range index)
and `total` the fixed `results["total"]`: per iteration the
cancellation gate, then the row body; an exception escaping the body
(a failing screenshot call) exits the loop fatally. -/
def runLoop (cfg : RunConfig) (env : RunEnv) (pageLive : Bool)
    (total : Nat) : List StyleRow → Nat → LoopSt → LoopExit
  | [], _, st => .done st
  | row :: rest, idx, st =>
    match cbGate env total st with
    | .stop st' => .interrupted st'
    | .go st' =>
      match rowIter cfg env pageLive idx row st' with
      | .error (m, st'') => .fatal m st''
      | .ok st'' => runLoop cfg env pageLive total rest (idx + 1) st''

/-- What one `run` invocation yields: the returned `results` dict, or
`.error m` when `run` itself raises (which happens exactly when the
`_take_screenshot` call of the outer `except` handler raises,
line 472); plus the two instrumentation traces of `LoopSt`. -/
structure RunOutcome where
  result : Except String RunResult
  attempted : List Nat
  reported : List (Nat × Nat)
deriving Repr

/-- The outer `except` handler of `run` (lines 470-478): take a
"critical_error" screenshot (whose own failure escapes `run`), set
`success = False` and append one error record. -/
def fatalExit (cfg : RunConfig) (env : RunEnv) (pageLive : Bool)
    (e : String) (total : Nat) (st : LoopSt) : RunOutcome :=
  match take_screenshot cfg env pageLive st.shots "critical_error" with
  | .error m => ⟨.error m, st.attempted, st.reported⟩
  | .ok path =>
    ⟨.ok { success := false, total := total, completed := st.completed,
           failed := st.failed,
           errors := st.errors ++ [.critical e path] },
     st.attempted, st.reported⟩

/-- The initial loop state: `results` starts at zero (lines 400-406)
and no screenshot or callback call has happened yet. -/
def initSt : LoopSt := ⟨0, 0, [], 0, [], []⟩

/-- The tail of the no-fatal path of `run` (lines 466-483): the final
progress report after the loop (lines 466-468, its return value
ignored) and the assembly of the returned `results`. -/
def finishRun (env : RunEnv) (total : Nat) (st : LoopSt) : RunOutcome :=
  let st :=
    match env.callback with
    | none => st
    | some _ => { st with reported := st.reported ++ [(st.completed, total)] }
  ⟨.ok { success := true, total := total, completed := st.completed,
         failed := st.failed, errors := st.errors },
   st.attempted, st.reported⟩

/-- `run` (lines 379-483), in source order: `_start_browser`
(line 410, a failure of which reaches the outer handler with no live
page), `step_login` (line 413), the dataset load (lines 416-419),
`results["total"] = len(df)` (line 421),
`step_navigate_to_style_list_page` (line 424), the row loop from
`start_from_row` (lines 427-464), the final callback report
(lines 466-468, return value ignored), and the outer `except` handler
(lines 470-478). -/
def run (cfg : RunConfig) (env : RunEnv) : RunOutcome :=
  match env.browserStartError with
  | some e => fatalExit cfg env false e 0 initSt
  | none =>
    match step_login env.login cfg.salonInfo with
    | .error e => fatalExit cfg env true e 0 initSt
    | .ok _ =>
      match env.datasetLoad with
      | .error e => fatalExit cfg env true e 0 initSt
      | .ok rows =>
        let total := rows.length
        match step_navigate env with
        | .error e => fatalExit cfg env true e total initSt
        | .ok _ =>
          match runLoop cfg env true total (rows.drop cfg.startFromRow)
              cfg.startFromRow initSt with
          | .fatal e st => fatalExit cfg env true e total st
          | .done st | .interrupted st => finishRun env total st

/-! ### Task layer (`app/tasks/style_post_task.py`)

The persisted Job record and the progress/cancellation callback the
task layer installs, needed to settle the resume-idempotence claim.
The database is reduced to the two Job fields the callback and the
final status update touch. -/

/-- The persisted Job fields touched by `execute_style_post`:
`status` and `completed_items`. -/
structure TaskRecord where
  status : String
  completed_items : Nat
deriving Repr, DecidableEq

/-- `check_and_report_progress_callback` (style_post_task.py,
lines 120-131) acting on the Job record: it first writes
`status = "PROCESSING"` and `completed_items = completed`
(line 123), then re-reads the record and returns False exactly when it
finds `status == "INTERRUPTED"` (lines 127-131).  `sig n` models an
external writer setting the status to INTERRUPTED between the write
and the re-read of the n-th invocation.  Returns the updated record
and the continue signal. -/
def applyCallback (sig : Nat → Bool) (n completed : Nat)
    (_tr : TaskRecord) : TaskRecord × Bool :=
  let tr : TaskRecord := ⟨"PROCESSING", completed⟩
  if sig n then ({ tr with status := "INTERRUPTED" }, false) else (tr, true)

/-- The continue signal of `check_and_report_progress_callback` as the
engine sees it: the `Bool` component of `applyCallback`, which depends
only on the invocation index. -/
def cbOf (sig : Nat → Bool) : Nat → Nat → Nat → Bool :=
  fun n _ _ => !(sig n)

/-- The Job record after a sequence of callback invocations, folding
`applyCallback` over the reported `(completed, total)` pairs in
invocation order starting at invocation index `n`. -/
def dbAfterReports (sig : Nat → Bool) :
    List (Nat × Nat) → Nat → TaskRecord → TaskRecord
  | [], _, tr => tr
  | (c, _) :: rest, n, tr =>
    dbAfterReports sig rest (n + 1) (applyCallback sig n c tr).1

/-- `execute_style_post` (style_post_task.py, lines 42-212) reduced to
its effect on the Job record: read the resume offset
`start_from = task.completed_items` (line 88), set the status to
PROCESSING (lines 92-94), run the poster with
`start_from_row = start_from` and the progress callback installed
(lines 133-149, during which the Job record evolves by one
`applyCallback` per callback invocation), then the final status update
(lines 151-188): if the record reads INTERRUPTED it stays INTERRUPTED
with `completed_items = results["completed"]` (lines 152-162); else
SUCCESS with `completed_items = results["completed"]` both when no row
failed (lines 165-171) and when some rows failed (lines 172-181); else
FAILURE with `completed_items` not written (lines 182-188); if `run`
itself raised, the exception handler sets FAILURE without writing
`completed_items` (lines 193-212). -/
def execute_style_post (cfg : RunConfig) (env : RunEnv)
    (sig : Nat → Bool) (tr0 : TaskRecord) : TaskRecord × RunOutcome :=
  let startFrom := tr0.completed_items
  let tr1 : TaskRecord := { tr0 with status := "PROCESSING" }
  let out := run { cfg with startFromRow := startFrom }
      { env with callback := some (cbOf sig) }
  let tr2 := dbAfterReports sig out.reported 0 tr1
  let trFinal :=
    match out.result with
    | .error _ => { tr2 with status := "FAILURE" }
    | .ok r =>
      if tr2.status == "INTERRUPTED" then
        { tr2 with completed_items := r.completed }
      else if r.success && r.failed == 0 then
        ⟨"SUCCESS", r.completed⟩
      else if 0 < r.failed then
        ⟨"SUCCESS", r.completed⟩
      else
        { tr2 with status := "FAILURE" }
  (trFinal, out)

/-! ### Benign-environment abbreviations shared by several claims -/

/-- A login environment in which every external interaction succeeds
and no salon-selection table appears. -/
def benignLogin : LoginEnv := ⟨false, none, .ok, false, [], none, none⟩

/-- A per-row page environment in which every action succeeds. -/
def okRow : RowEnv := ⟨.ok, none, .ok, none, .ok⟩

/-! ### Projections used by the theorems -/

/-- The screenshot path stored in an error record. -/
def screenshotOf : ErrorRecord → String
  | .rowError _ _ _ s => s
  | .critical _ s => s

/-- The row index of a row-level error record (0 for a critical
record; only ever applied to row records in the lemmas below). -/
def rowOf : ErrorRecord → Nat
  | .rowError i _ _ _ => i
  | .critical _ _ => 0

/-- Numeric value of a decimal digit character. -/
def decCharVal (c : Char) : Nat := c.toNat - 48

/-- Value of a big-endian decimal digit list. -/
def decVal (l : List Char) : Nat :=
  l.foldl (fun a c => a * 10 + decCharVal c) 0

/-- The shape of every row-level error record produced by the row
loop: a `rowError` whose screenshot path is the one `_take_screenshot`
builds for the prefix `error_row_{i}` and some call index `k`. -/
def RowShape (cfg : RunConfig) (env : RunEnv) (rec : ErrorRecord) : Prop :=
  ∃ i nm msg k, rec = .rowError i nm msg
    (cfg.screenshotDir ++ "/" ++ ("error_row_" ++ decRepr i) ++ "_"
      ++ env.timestamp k ++ ".png")

/-- The `(completed, total)` pairs reported by `len` consecutive
all-successful loop iterations starting at completed count `c`
(empty when no callback is installed). -/
def reportsOf (env : RunEnv) (c total len : Nat) : List (Nat × Nat) :=
  match env.callback with
  | none => []
  | some _ => (List.range' c len).map fun x => (x, total)

/-! ### Concrete instances used by counterexamples and witnesses -/

/-- A run configuration with screenshot directory `shots`, image
directory `img`, no salon hint and offset 0. -/
def cfg0 : RunConfig := ⟨"shots", "img", none, 0⟩

/-- `cfg0` with resume offset 1. -/
def cfgK1 : RunConfig := ⟨"shots", "img", none, 1⟩

/-- A two-row dataset with distinct image and style names. -/
def rowsC1 : List StyleRow :=
  [⟨some "a.jpg", some "s0"⟩, ⟨some "b.jpg", some "s1"⟩]

/-- An environment whose infrastructure is fully benign and in which
the robot-detection guard fires at the register-button click of row 0;
row 1 behaves normally; no callback is installed. -/
def envC1 : RunEnv :=
  ⟨none, benignLogin, .ok rowsC1, .ok, .ok,
   fun i => if i == 0 then ⟨.ok, none, .robotDetected, none, .ok⟩ else okRow,
   fun _ => true, fun _ => none, fun k => "T" ++ decRepr k, none⟩

/-- A fully benign environment over the two-row dataset. -/
def envOk : RunEnv :=
  ⟨none, benignLogin, .ok rowsC1, .ok, .ok, fun _ => okRow,
   fun _ => true, fun _ => none, fun k => "T" ++ decRepr k, none⟩

/-- An environment whose login page shows a robot-detection
signature. -/
def envLoginRobot : RunEnv :=
  ⟨none, ⟨true, none, .ok, false, [], none, none⟩, .ok rowsC1, .ok, .ok,
   fun _ => okRow, fun _ => true, fun _ => none,
   fun k => "T" ++ decRepr k, none⟩

/-- An environment in which the guard fires at the first navigation
hop. -/
def envNavRobot : RunEnv :=
  ⟨none, benignLogin, .ok rowsC1, .robotDetected, .ok,
   fun _ => okRow, fun _ => true, fun _ => none,
   fun k => "T" ++ decRepr k, none⟩

/-- A two-row dataset whose first row is missing the `画像名` field. -/
def rowsC6 : List StyleRow := [⟨none, some "s0"⟩, ⟨some "b.jpg", some "s1"⟩]

/-- A benign environment over `rowsC6`. -/
def envC6 : RunEnv :=
  ⟨none, benignLogin, .ok rowsC6, .ok, .ok, fun _ => okRow,
   fun _ => true, fun _ => none, fun k => "T" ++ decRepr k, none⟩

/-- A two-row dataset whose second row references an image file that
is absent from the image directory. -/
def rowsC2w : List StyleRow :=
  [⟨some "a.jpg", some "s0"⟩, ⟨some "missing.jpg", some "s1"⟩]

/-- A benign environment over `rowsC2w` in which only `a.jpg` exists. -/
def envC2w : RunEnv :=
  ⟨none, benignLogin, .ok rowsC2w, .ok, .ok, fun _ => okRow,
   fun nm => nm == "a.jpg", fun _ => none,
   fun k => "T" ++ decRepr k, none⟩

/-- A three-row benign dataset. -/
def rows3 : List StyleRow :=
  [⟨some "a.jpg", some "s0"⟩, ⟨some "b.jpg", some "s1"⟩,
   ⟨some "c.jpg", some "s2"⟩]

/-- A benign environment over `rows3` with a callback that stops at
invocation index 1 (after row 0 completes). -/
def envC5w : RunEnv :=
  ⟨none, benignLogin, .ok rows3, .ok, .ok, fun _ => okRow,
   fun _ => true, fun _ => none, fun k => "T" ++ decRepr k,
   some (fun n _ _ => !(n == 1))⟩

/-- A one-row dataset whose image file is absent. -/
def rowsC8 : List StyleRow := [⟨some "a.jpg", some "s0"⟩]

/-- An environment over `rowsC8` in which the image is absent and the
first `page.screenshot` call (the row-failure one) raises. -/
def envC8 : RunEnv :=
  ⟨none, benignLogin, .ok rowsC8, .ok, .ok, fun _ => okRow,
   fun _ => false, (fun k => if k == 0 then some "Page crashed" else none),
   fun k => "T" ++ decRepr k, none⟩

/-- `envC8` with every screenshot call succeeding. -/
def envC8ok : RunEnv := { envC8 with screenshotError := fun _ => none }

/-- `envC8` with the critical-handler screenshot call failing too. -/
def envC8both : RunEnv :=
  { envC8 with screenshotError :=
      fun k => if k == 0 then some "Page crashed" else some "Disk full" }

/-- A two-row environment in which both image files are absent (two
row failures in one run) and the clock is stuck at one fixed
second-resolution timestamp. -/
def envC9w : RunEnv :=
  ⟨none, benignLogin, .ok rowsC1, .ok, .ok, fun _ => okRow,
   fun _ => false, fun _ => none, fun _ => "20250101_000000", none⟩

/-- A five-row benign dataset. -/
def rows5 : List StyleRow := List.replicate 5 ⟨some "a.jpg", some "s"⟩

/-- A benign environment over `rows5`; the task layer installs its own
callback. -/
def envOk5 : RunEnv :=
  ⟨none, benignLogin, .ok rows5, .ok, .ok, fun _ => okRow,
   fun _ => true, fun _ => none, fun k => "T" ++ decRepr k, none⟩

/-- Interruption signal raised while callback invocations 1 and 2 are
in flight (the user pressing stop right after row 0 completes, the
signal re-applied while the post-break report runs). -/
def sigStop : Nat → Bool := fun n => n == 1 || n == 2

/-- No interruption signal. -/
def sigNone : Nat → Bool := fun _ => false

/-- The salon-selection table of the C7 scenario: the first listed row
name-matches the hint, the second id-matches it. -/
def salonRowsC7 : List SalonRow := [⟨"2", "A"⟩, ⟨"1", "B"⟩]

/-- A hint carrying both an id and a name. -/
def salonInfoC7 : SalonInfo := ⟨some "1", some "A"⟩

/-- An environment whose post-login page shows the salon-selection
table with rows none of which match the configured hint. -/
def envSalonNoMatch : RunEnv :=
  ⟨none, ⟨false, none, .ok, true, [⟨"9", "Z"⟩], none, none⟩, .ok rowsC1,
   .ok, .ok, fun _ => okRow, fun _ => true, fun _ => none,
   fun k => "T" ++ decRepr k, none⟩

/-- `cfg0` with the C7 salon hint configured. -/
def cfgSalon : RunConfig := ⟨"shots", "img", some ⟨some "1", some "A"⟩, 0⟩

/-- The result record of `run cfg0 envC1` (one failed row out of
two), used by the invariant witness. -/
def resC10 : RunResult :=
  ⟨true, 2, 1, 1, [.rowError 0 "s0" "Robot detection triggered"
    "shots/error_row_0_T0.png"]⟩

/-! ### Theorems: injectivity of the decimal rendering -/

theorem decCharVal_decDigitChar : ∀ d, d < 10 → decCharVal (decDigitChar d) = d := by
  decide

theorem decVal_append_digit (l : List Char) (c : Char) :
    decVal (l ++ [c]) = decVal l * 10 + decCharVal c := by
  simp [decVal, List.foldl_append]

theorem decVal_decDigitsAux :
    ∀ (fuel n : Nat), n ≤ fuel → decVal (decDigitsAux fuel n) = n := by
  intro fuel
  induction fuel with
  | zero =>
    intro n hn
    have h0 : n = 0 := by omega
    subst h0
    decide
  | succ fuel ih =>
    intro n hn
    show decVal (if n < 10 then [decDigitChar n]
      else decDigitsAux fuel (n / 10) ++ [decDigitChar (n % 10)]) = n
    by_cases h : n < 10
    · rw [if_pos h]
      show 0 * 10 + decCharVal (decDigitChar n) = n
      rw [decCharVal_decDigitChar n h]
      omega
    · rw [if_neg h]
      rw [decVal_append_digit, ih (n / 10) (by omega),
        decCharVal_decDigitChar (n % 10) (by omega)]
      omega

theorem decVal_decDigits (n : Nat) : decVal (decDigits n) = n :=
  decVal_decDigitsAux n n (Nat.le_refl n)

theorem decDigits_injective {a b : Nat} (h : decDigits a = decDigits b) :
    a = b := by
  have ha := decVal_decDigits a
  rw [h, decVal_decDigits] at ha
  omega

theorem decRepr_injective {a b : Nat} (h : decRepr a = decRepr b) :
    a = b := by
  apply decDigits_injective
  have : (decRepr a).data = (decRepr b).data := congrArg String.data h
  exact this

/-! ### Screenshot filename distinctness -/

theorem string_data_append (a b : String) : (a ++ b).data = a.data ++ b.data :=
  rfl

theorem string_length_eq_data_length (s : String) : s.length = s.data.length :=
  rfl

/-- Two row-failure screenshot paths with the same directory, both with
second-resolution (15-character) timestamps, agree only when their row
indices agree. -/
theorem rowshot_injective (d : String) (i j : Nat) (t1 t2 : String)
    (h1 : t1.length = 15) (h2 : t2.length = 15)
    (h : d ++ "/" ++ ("error_row_" ++ decRepr i) ++ "_" ++ t1 ++ ".png"
       = d ++ "/" ++ ("error_row_" ++ decRepr j) ++ "_" ++ t2 ++ ".png") :
    i = j := by
  have hd : (d ++ "/" ++ ("error_row_" ++ decRepr i) ++ "_" ++ t1 ++ ".png").data
      = (d ++ "/" ++ ("error_row_" ++ decRepr j) ++ "_" ++ t2 ++ ".png").data :=
    congrArg String.data h
  simp only [string_data_append, List.append_assoc] at hd
  have hd2 := List.append_cancel_left hd
  have hd3 := List.append_cancel_left hd2
  have hd4 := List.append_cancel_left hd3
  have hlen : ("_".data ++ (t1.data ++ ".png".data)).length
      = ("_".data ++ (t2.data ++ ".png".data)).length := by
    simp only [List.length_append]
    rw [show t1.data.length = 15 from h1, show t2.data.length = 15 from h2]
  have := (List.append_inj' hd4 hlen).1
  exact decDigits_injective this

/-- A row-failure screenshot path never equals a critical-error
screenshot path from the same directory. -/
theorem rowshot_ne_critshot (d : String) (i : Nat) (t1 t2 : String)
    (h : d ++ "/" ++ ("error_row_" ++ decRepr i) ++ "_" ++ t1 ++ ".png"
       = d ++ "/" ++ ("critical_error") ++ "_" ++ t2 ++ ".png") : False := by
  have hd : (d ++ "/" ++ ("error_row_" ++ decRepr i) ++ "_" ++ t1 ++ ".png").data
      = (d ++ "/" ++ ("critical_error") ++ "_" ++ t2 ++ ".png").data :=
    congrArg String.data h
  simp only [string_data_append, List.append_assoc] at hd
  have hd2 := List.append_cancel_left hd
  have hd3 := List.append_cancel_left hd2
  simp only [List.cons_append] at hd3
  injection hd3 with h1 _
  exact absurd h1 (by decide)

/-! ### Lemmas about the building blocks of the row loop -/

theorem take_screenshot_ok_path (cfg : RunConfig) (env : RunEnv) (pl : Bool)
    (k : Nat) (pre p : String) (h : take_screenshot cfg env pl k pre = .ok p) :
    p = cfg.screenshotDir ++ "/" ++ pre ++ "_" ++ env.timestamp k ++ ".png" := by
  unfold take_screenshot at h
  cases pl with
  | false => simpa using h.symm
  | true =>
    cases hs : env.screenshotError k with
    | some m => rw [hs] at h; simp at h
    | none => rw [hs] at h; simpa using h.symm

theorem take_screenshot_of_noError (cfg : RunConfig) (env : RunEnv)
    (k : Nat) (pre : String) (hs : env.screenshotError k = none) :
    take_screenshot cfg env true k pre =
      .ok (cfg.screenshotDir ++ "/" ++ pre ++ "_" ++ env.timestamp k ++ ".png") := by
  simp [take_screenshot, hs]

theorem take_screenshot_pageDead (cfg : RunConfig) (env : RunEnv)
    (k : Nat) (pre : String) :
    take_screenshot cfg env false k pre =
      .ok (cfg.screenshotDir ++ "/" ++ pre ++ "_" ++ env.timestamp k ++ ".png") := by
  simp [take_screenshot]

/-- Complete case analysis of one row-body iteration, with the state
deltas each case produces. -/
theorem rowIter_cases (cfg : RunConfig) (env : RunEnv) (pl : Bool)
    (idx : Nat) (row : StyleRow) (st : LoopSt) :
    (∃ st', rowIter cfg env pl idx row st = .ok st' ∧
      ∃ dc df ds nerr natt,
        st' = ⟨st.completed + dc, st.failed + df, st.errors ++ nerr,
               st.shots + ds, st.attempted ++ natt, st.reported⟩
        ∧ dc + df = 1 ∧ nerr.length = df ∧ List.Sublist natt [idx]
        ∧ ∀ rec ∈ nerr, RowShape cfg env rec ∧ rowOf rec = idx)
    ∨ (∃ m st', rowIter cfg env pl idx row st = .error (m, st') ∧
      ∃ natt,
        st' = ⟨st.completed, st.failed, st.errors,
               st.shots + 1, st.attempted ++ natt, st.reported⟩
        ∧ List.Sublist natt [idx]) := by
  rcases hpr : processRow cfg env idx row with ⟨att, out⟩
  cases out with
  | ok u =>
    cases u
    left
    cases att with
    | true =>
      have hr : rowIter cfg env pl idx row st =
          .ok { st with completed := st.completed + 1,
                        attempted := st.attempted ++ [idx] } := by
        unfold rowIter; rw [hpr]; simp
      exact ⟨_, hr, 1, 0, 0, [], [idx], by cases st <;> simp, by omega, rfl,
        List.Sublist.refl _, by simp⟩
    | false =>
      have hr : rowIter cfg env pl idx row st =
          .ok { st with completed := st.completed + 1 } := by
        unfold rowIter; rw [hpr]; simp
      exact ⟨_, hr, 1, 0, 0, [], [], by cases st <;> simp, by omega, rfl,
        List.nil_sublist _, by simp⟩
  | error e =>
    cases att with
    | true =>
      cases hts : take_screenshot cfg env pl st.shots
          ("error_row_" ++ decRepr idx) with
      | error m =>
        right
        have hr : rowIter cfg env pl idx row st =
            .error (m, { st with shots := st.shots + 1,
                                 attempted := st.attempted ++ [idx] }) := by
          unfold rowIter; rw [hpr]; simp [hts]
        exact ⟨m, _, hr, [idx], by cases st <;> simp, List.Sublist.refl _⟩
      | ok path =>
        left
        have hr : rowIter cfg env pl idx row st =
            .ok ⟨st.completed, st.failed + 1,
                 st.errors ++ [.rowError idx ((row.styleName).getD "Unknown") e path],
                 st.shots + 1, st.attempted ++ [idx], st.reported⟩ := by
          unfold rowIter; rw [hpr]; simp [hts]
        refine ⟨_, hr, 0, 1, 1,
          [.rowError idx ((row.styleName).getD "Unknown") e path], [idx],
          by cases st <;> simp, by omega, rfl, List.Sublist.refl _, ?_⟩
        intro rec hrec
        simp at hrec
        subst hrec
        refine ⟨⟨idx, (row.styleName).getD "Unknown", e, st.shots, ?_⟩, rfl⟩
        rw [take_screenshot_ok_path cfg env pl st.shots _ path hts]
    | false =>
      cases hts : take_screenshot cfg env pl st.shots
          ("error_row_" ++ decRepr idx) with
      | error m =>
        right
        have hr : rowIter cfg env pl idx row st =
            .error (m, { st with shots := st.shots + 1 }) := by
          unfold rowIter; rw [hpr]; simp [hts]
        exact ⟨m, _, hr, [], by cases st <;> simp, List.nil_sublist _⟩
      | ok path =>
        left
        have hr : rowIter cfg env pl idx row st =
            .ok ⟨st.completed, st.failed + 1,
                 st.errors ++ [.rowError idx ((row.styleName).getD "Unknown") e path],
                 st.shots + 1, st.attempted, st.reported⟩ := by
          unfold rowIter; rw [hpr]; simp [hts]
        refine ⟨_, hr, 0, 1, 1,
          [.rowError idx ((row.styleName).getD "Unknown") e path], [],
          by cases st <;> simp, by omega, rfl, List.nil_sublist _, ?_⟩
        intro rec hrec
        simp at hrec
        subst hrec
        refine ⟨⟨idx, (row.styleName).getD "Unknown", e, st.shots, ?_⟩, rfl⟩
        rw [take_screenshot_ok_path cfg env pl st.shots _ path hts]

theorem rowIter_allOk (cfg : RunConfig) (env : RunEnv) (pl : Bool)
    (idx : Nat) (row : StyleRow) (st : LoopSt)
    (h : processRow cfg env idx row = (true, .ok ())) :
    rowIter cfg env pl idx row st =
      .ok { st with completed := st.completed + 1,
                    attempted := st.attempted ++ [idx] } := by
  unfold rowIter
  rw [h]
  simp

theorem rowIter_ne_error (cfg : RunConfig) (env : RunEnv)
    (idx : Nat) (row : StyleRow) (st : LoopSt)
    (hshot : ∀ k, env.screenshotError k = none) (m : String) (st' : LoopSt) :
    rowIter cfg env true idx row st ≠ .error (m, st') := by
  unfold rowIter
  rcases hpr : processRow cfg env idx row with ⟨att, out⟩
  cases out with
  | ok u => cases u; cases att <;> simp
  | error e =>
    cases att <;>
      simp [take_screenshot_of_noError cfg env _ _ (hshot _)]

/-! ### Lemmas about the row loop -/

theorem cbGate_none (env : RunEnv) (total : Nat) (st : LoopSt)
    (h : env.callback = none) : cbGate env total st = .go st := by
  simp [cbGate, h]

theorem cbGate_some_true (env : RunEnv) (total : Nat) (st : LoopSt)
    (cb : Nat → Nat → Nat → Bool) (h : env.callback = some cb)
    (ht : cb st.reported.length st.completed total = true) :
    cbGate env total st =
      .go { st with reported := st.reported ++ [(st.completed, total)] } := by
  simp [cbGate, h, ht]

theorem cbGate_some_false (env : RunEnv) (total : Nat) (st : LoopSt)
    (cb : Nat → Nat → Nat → Bool) (h : env.callback = some cb)
    (ht : cb st.reported.length st.completed total = false) :
    cbGate env total st =
      .stop { st with reported := st.reported ++ [(st.completed, total)] } := by
  simp [cbGate, h, ht]

theorem runLoop_nil (cfg : RunConfig) (env : RunEnv) (pl : Bool)
    (total idx : Nat) (st : LoopSt) :
    runLoop cfg env pl total [] idx st = .done st := rfl

theorem runLoop_cons (cfg : RunConfig) (env : RunEnv) (pl : Bool)
    (total : Nat) (a : StyleRow) (as : List StyleRow) (idx : Nat)
    (st : LoopSt) :
    runLoop cfg env pl total (a :: as) idx st =
      match cbGate env total st with
      | .stop st' => .interrupted st'
      | .go st' =>
        match rowIter cfg env pl idx a st' with
        | .error (m, st'') => .fatal m st''
        | .ok st'' => runLoop cfg env pl total as (idx + 1) st'' := rfl

theorem range'_succ_eq (s n : Nat) :
    List.range' s (n + 1) = s :: List.range' (s + 1) n := rfl

theorem reportsOf_zero (env : RunEnv) (c total : Nat) :
    reportsOf env c total 0 = [] := by
  unfold reportsOf
  cases env.callback <;> simp

/-- A segment of rows that all process successfully, under a callback
(if any) that keeps returning true, runs to `done`, completing every
row, attempting each index in order and reporting once per row. -/
theorem runLoop_allOk (cfg : RunConfig) (env : RunEnv) (pl : Bool)
    (total : Nat) : ∀ (as : List StyleRow) (idx : Nat) (st : LoopSt),
    (∀ i r, as[i]? = some r → processRow cfg env (idx + i) r = (true, .ok ())) →
    (∀ cb t, env.callback = some cb → t < as.length →
        cb (st.reported.length + t) (st.completed + t) total = true) →
    runLoop cfg env pl total as idx st =
      .done ⟨st.completed + as.length, st.failed, st.errors, st.shots,
             st.attempted ++ List.range' idx as.length,
             st.reported ++ reportsOf env st.completed total as.length⟩ := by
  intro as
  induction as with
  | nil =>
    intro idx st _ _
    rw [runLoop_nil]
    cases st
    simp [reportsOf_zero]
  | cons a as ih =>
    intro idx st hrow hcb
    have h0 : processRow cfg env idx a = (true, .ok ()) := by
      have h := hrow 0 a (by simp)
      simpa using h
    have hrow' : ∀ i r, as[i]? = some r →
        processRow cfg env (idx + 1 + i) r = (true, .ok ()) := by
      intro i r h
      have h2 := hrow (i + 1) r (by simpa using h)
      rw [show idx + (i + 1) = idx + 1 + i by omega] at h2
      exact h2
    rw [runLoop_cons]
    cases hcbE : env.callback with
    | none =>
      rw [cbGate_none env total st hcbE]
      dsimp only
      rw [rowIter_allOk cfg env pl idx a st h0]
      dsimp only
      rw [ih (idx + 1)
          { st with completed := st.completed + 1,
                    attempted := st.attempted ++ [idx] }
          hrow'
          (by
            intro cb' t hcbeq ht
            rw [hcbE] at hcbeq
            cases hcbeq)]
      cases st
      simp [reportsOf, hcbE, range'_succ_eq]
      omega
    | some cb =>
      have ht0 : cb st.reported.length st.completed total = true := by
        have h := hcb cb 0 hcbE (by simp)
        simpa using h
      rw [cbGate_some_true env total st cb hcbE ht0]
      dsimp only
      rw [rowIter_allOk cfg env pl idx a _ h0]
      dsimp only
      rw [ih (idx + 1)
          { st with completed := st.completed + 1,
                    attempted := st.attempted ++ [idx],
                    reported := st.reported ++ [(st.completed, total)] }
          hrow'
          (by
            intro cb' t hcbeq ht
            rw [hcbE] at hcbeq
            have hcb2 : cb' = cb := Option.some.inj hcbeq.symm
            rw [hcb2]
            show cb ((st.reported ++ [(st.completed, total)]).length + t)
                (st.completed + 1 + t) total = true
            have h2 := hcb cb (t + 1) hcbE (by simpa using Nat.succ_lt_succ ht)
            rw [show (st.reported ++ [(st.completed, total)]).length + t
                = st.reported.length + (t + 1) by simp; omega,
              show st.completed + 1 + t = st.completed + (t + 1) by omega]
            exact h2)]
      cases st
      simp [reportsOf, hcbE, range'_succ_eq, List.append_assoc]
      omega

theorem runLoop_append (cfg : RunConfig) (env : RunEnv) (pl : Bool)
    (total : Nat) (as bs : List StyleRow) : ∀ (idx : Nat) (st : LoopSt),
    runLoop cfg env pl total (as ++ bs) idx st =
      match runLoop cfg env pl total as idx st with
      | .done st' => runLoop cfg env pl total bs (idx + as.length) st'
      | .interrupted st' => .interrupted st'
      | .fatal m st' => .fatal m st' := by
  induction as with
  | nil => intro idx st; simp [runLoop]
  | cons a as ih =>
    intro idx st
    simp only [List.cons_append, runLoop]
    split
    · rfl
    · split
      · rfl
      · simp only [List.append_eq]
        rw [ih]
        have h : idx + 1 + as.length = idx + (a :: as).length := by
          simp [List.length_cons]; omega
        rw [h]

/-- Every loop execution only extends the entry state: at most one
unit of completed/failed per row, exactly one error record per
recorded failure, and attempted indices forming a subsequence of the
processed index range, whatever the exit kind. -/
theorem runLoop_general (cfg : RunConfig) (env : RunEnv) (pl : Bool)
    (total : Nat) : ∀ (as : List StyleRow) (idx : Nat) (st : LoopSt),
    ∃ dc df ds nerr natt nrep,
      (runLoop cfg env pl total as idx st).state =
        ⟨st.completed + dc, st.failed + df, st.errors ++ nerr,
         st.shots + ds, st.attempted ++ natt, st.reported ++ nrep⟩
      ∧ dc + df ≤ as.length ∧ nerr.length = df
      ∧ List.Sublist natt (List.range' idx as.length) := by
  intro as
  induction as with
  | nil =>
    intro idx st
    refine ⟨0, 0, 0, [], [], [], ?_, by simp, rfl, by simp⟩
    rw [runLoop_nil]
    cases st
    simp [LoopExit.state]
  | cons a as ih =>
    intro idx st
    rw [runLoop_cons]
    have hrange : List.range' idx (a :: as).length
        = idx :: List.range' (idx + 1) as.length := by
      simp [List.length_cons, range'_succ_eq]
    cases hcbE : env.callback with
    | none =>
      rw [cbGate_none env total st hcbE]
      dsimp only
      rcases rowIter_cases cfg env pl idx a st with
        ⟨st'', hok, dc0, df0, ds0, nerr0, natt0, hst'', hdcdf, hlen, hsub, _⟩
        | ⟨m, st'', herr, natt0, hst'', hsub⟩
      · rw [hok]
        dsimp only
        subst hst''
        rcases ih (idx + 1) _ with
          ⟨dc1, df1, ds1, nerr1, natt1, nrep1, hstate, hle, hlen1, hsub1⟩
        refine ⟨dc0 + dc1, df0 + df1, ds0 + ds1, nerr0 ++ nerr1,
          natt0 ++ natt1, nrep1, ?_, by simp [List.length_cons]; omega,
          by simp [hlen, hlen1], ?_⟩
        · rw [hstate]
          cases st
          simp [List.append_assoc]
          omega
        · rw [hrange]
          have h2 := List.Sublist.append hsub hsub1
          simpa using h2
      · rw [herr]
        dsimp only
        subst hst''
        refine ⟨0, 0, 1, [], natt0, [], ?_, by simp, rfl, ?_⟩
        · cases st
          simp [LoopExit.state]
        · rw [hrange]
          exact hsub.trans (List.Sublist.cons₂ _ (List.nil_sublist _))
    | some cb =>
      cases htv : cb st.reported.length st.completed total with
      | false =>
        rw [cbGate_some_false env total st cb hcbE htv]
        dsimp only
        exact ⟨0, 0, 0, [], [], [(st.completed, total)],
          by cases st; simp [LoopExit.state], by simp, rfl, by simp⟩
      | true =>
        rw [cbGate_some_true env total st cb hcbE htv]
        dsimp only
        rcases rowIter_cases cfg env pl idx a
            { st with reported := st.reported ++ [(st.completed, total)] } with
          ⟨st'', hok, dc0, df0, ds0, nerr0, natt0, hst'', hdcdf, hlen, hsub, _⟩
          | ⟨m, st'', herr, natt0, hst'', hsub⟩
        · rw [hok]
          dsimp only
          subst hst''
          rcases ih (idx + 1) _ with
            ⟨dc1, df1, ds1, nerr1, natt1, nrep1, hstate, hle, hlen1, hsub1⟩
          refine ⟨dc0 + dc1, df0 + df1, ds0 + ds1, nerr0 ++ nerr1,
            natt0 ++ natt1, (st.completed, total) :: nrep1, ?_,
            by simp [List.length_cons]; omega, by simp [hlen, hlen1], ?_⟩
          · rw [hstate]
            cases st
            simp [List.append_assoc]
            omega
          · rw [hrange]
            have h2 := List.Sublist.append hsub hsub1
            simpa using h2
        · rw [herr]
          dsimp only
          subst hst''
          refine ⟨0, 0, 1, [], natt0, [(st.completed, total)], ?_, by simp,
            rfl, ?_⟩
          · cases st
            simp [LoopExit.state]
          · rw [hrange]
            exact hsub.trans (List.Sublist.cons₂ _ (List.nil_sublist _))

/-- When every `page.screenshot` call succeeds, the row loop never
exits fatally: row-level failures are always recorded and absorbed. -/
theorem runLoop_no_fatal (cfg : RunConfig) (env : RunEnv) (total : Nat)
    (hshot : ∀ k, env.screenshotError k = none) :
    ∀ (as : List StyleRow) (idx : Nat) (st : LoopSt) (m : String)
      (st' : LoopSt),
    runLoop cfg env true total as idx st ≠ .fatal m st' := by
  intro as
  induction as with
  | nil => intro idx st m st'; rw [runLoop_nil]; simp
  | cons a as ih =>
    intro idx st m st'
    rw [runLoop_cons]
    cases hg : cbGate env total st with
    | stop st1 => simp
    | go st1 =>
      dsimp only
      cases hri : rowIter cfg env true idx a st1 with
      | error p => exact absurd hri (rowIter_ne_error cfg env idx a st1 hshot p.1 p.2)
      | ok st2 =>
        dsimp only
        exact ih (idx + 1) st2 m st'

/-- Every error record the loop appends is a row-level record of the
canonical screenshot shape, with row indices strictly increasing and
bounded by the processed range. -/
theorem runLoop_errshape (cfg : RunConfig) (env : RunEnv) (pl : Bool)
    (total : Nat) : ∀ (as : List StyleRow) (idx : Nat) (st : LoopSt),
    (∀ rec ∈ st.errors, RowShape cfg env rec ∧ rowOf rec < idx) →
    st.errors.Pairwise (fun x y => rowOf x < rowOf y) →
    (∀ rec ∈ (runLoop cfg env pl total as idx st).state.errors,
        RowShape cfg env rec ∧ rowOf rec < idx + as.length)
    ∧ (runLoop cfg env pl total as idx st).state.errors.Pairwise
        (fun x y => rowOf x < rowOf y) := by
  intro as
  induction as with
  | nil =>
    intro idx st hinv hpw
    rw [runLoop_nil]
    exact ⟨fun rec h => ⟨(hinv rec h).1, by have := (hinv rec h).2; omega⟩, hpw⟩
  | cons a as ih =>
    intro idx st hinv hpw
    rw [runLoop_cons]
    have hmono : ∀ rec ∈ st.errors, RowShape cfg env rec
        ∧ rowOf rec < idx + (a :: as).length := by
      intro rec h
      exact ⟨(hinv rec h).1, by have := (hinv rec h).2; simp; omega⟩
    cases hcbE : env.callback with
    | none =>
      rw [cbGate_none env total st hcbE]
      dsimp only
      rcases rowIter_cases cfg env pl idx a st with
        ⟨st'', hok, dc0, df0, ds0, nerr0, natt0, hst'', hdcdf, hlen, hsub, hshape⟩
        | ⟨m, st'', herr, natt0, hst'', hsub⟩
      · rw [hok]
        dsimp only
        subst hst''
        have hinv' : ∀ rec ∈ st.errors ++ nerr0,
            RowShape cfg env rec ∧ rowOf rec < idx + 1 := by
          intro rec h
          rcases List.mem_append.mp h with h1 | h2
          · exact ⟨(hinv rec h1).1, by have := (hinv rec h1).2; omega⟩
          · exact ⟨(hshape rec h2).1, by have := (hshape rec h2).2; omega⟩
        have hpw' : (st.errors ++ nerr0).Pairwise
            (fun x y => rowOf x < rowOf y) := by
          rw [List.pairwise_append]
          refine ⟨hpw, ?_, ?_⟩
          · rcases nerr0 with _ | ⟨rec, rest⟩
            · exact List.Pairwise.nil
            · have : rest = [] := by
                have := hlen
                cases rest with
                | nil => rfl
                | cons x xs => simp at this; omega
              subst this
              simp
          · intro x hx y hy
            have h1 := (hinv x hx).2
            have h2 := (hshape y hy).2
            omega
        have hres := ih (idx + 1)
          ⟨st.completed + dc0, st.failed + df0, st.errors ++ nerr0,
           st.shots + ds0, st.attempted ++ natt0, st.reported⟩ hinv' hpw'
        refine ⟨fun rec h => ?_, hres.2⟩
        have := hres.1 rec h
        exact ⟨this.1, by have := this.2; simp; omega⟩
      · rw [herr]
        dsimp only
        subst hst''
        exact ⟨hmono, hpw⟩
    | some cb =>
      cases htv : cb st.reported.length st.completed total with
      | false =>
        rw [cbGate_some_false env total st cb hcbE htv]
        dsimp only
        exact ⟨hmono, hpw⟩
      | true =>
        rw [cbGate_some_true env total st cb hcbE htv]
        dsimp only
        rcases rowIter_cases cfg env pl idx a
            { st with reported := st.reported ++ [(st.completed, total)] } with
          ⟨st'', hok, dc0, df0, ds0, nerr0, natt0, hst'', hdcdf, hlen, hsub, hshape⟩
          | ⟨m, st'', herr, natt0, hst'', hsub⟩
        · rw [hok]
          dsimp only
          subst hst''
          have hinv' : ∀ rec ∈ st.errors ++ nerr0,
              RowShape cfg env rec ∧ rowOf rec < idx + 1 := by
            intro rec h
            rcases List.mem_append.mp h with h1 | h2
            · exact ⟨(hinv rec h1).1, by have := (hinv rec h1).2; omega⟩
            · exact ⟨(hshape rec h2).1, by have := (hshape rec h2).2; omega⟩
          have hpw' : (st.errors ++ nerr0).Pairwise
              (fun x y => rowOf x < rowOf y) := by
            rw [List.pairwise_append]
            refine ⟨hpw, ?_, ?_⟩
            · rcases nerr0 with _ | ⟨rec, rest⟩
              · exact List.Pairwise.nil
              · have : rest = [] := by
                  have := hlen
                  cases rest with
                  | nil => rfl
                  | cons x xs => simp at this; omega
                subst this
                simp
            · intro x hx y hy
              have h1 := (hinv x hx).2
              have h2 := (hshape y hy).2
              omega
          have hres := ih (idx + 1)
            ⟨st.completed + dc0, st.failed + df0, st.errors ++ nerr0,
             st.shots + ds0, st.attempted ++ natt0,
             st.reported ++ [(st.completed, total)]⟩ hinv' hpw'
          refine ⟨fun rec h => ?_, hres.2⟩
          have := hres.1 rec h
          exact ⟨this.1, by have := this.2; simp; omega⟩
        · rw [herr]
          dsimp only
          subst hst''
          exact ⟨hmono, hpw⟩

/-! ### Run-level lemmas -/

theorem finishRun_none (env : RunEnv) (total : Nat) (st : LoopSt)
    (h : env.callback = none) :
    finishRun env total st =
      ⟨.ok ⟨true, total, st.completed, st.failed, st.errors⟩,
       st.attempted, st.reported⟩ := by
  simp [finishRun, h]

theorem finishRun_some (env : RunEnv) (total : Nat) (st : LoopSt)
    (cb : Nat → Nat → Nat → Bool) (h : env.callback = some cb) :
    finishRun env total st =
      ⟨.ok ⟨true, total, st.completed, st.failed, st.errors⟩,
       st.attempted, st.reported ++ [(st.completed, total)]⟩ := by
  simp [finishRun, h]

theorem fatalExit_noError (cfg : RunConfig) (env : RunEnv) (e : String)
    (total : Nat) (st : LoopSt) (hs : env.screenshotError st.shots = none) :
    fatalExit cfg env true e total st =
      ⟨.ok ⟨false, total, st.completed, st.failed,
        st.errors ++ [.critical e (cfg.screenshotDir ++ "/" ++ "critical_error"
          ++ "_" ++ env.timestamp st.shots ++ ".png")]⟩,
       st.attempted, st.reported⟩ := by
  unfold fatalExit
  rw [take_screenshot_of_noError cfg env st.shots _ hs]

theorem fatalExit_shotFail (cfg : RunConfig) (env : RunEnv) (e : String)
    (total : Nat) (st : LoopSt) (m : String)
    (hs : env.screenshotError st.shots = some m) :
    fatalExit cfg env true e total st = ⟨.error m, st.attempted, st.reported⟩ := by
  unfold fatalExit
  simp [take_screenshot, hs]

theorem fatalExit_pageDead (cfg : RunConfig) (env : RunEnv) (e : String)
    (total : Nat) (st : LoopSt) :
    fatalExit cfg env false e total st =
      ⟨.ok ⟨false, total, st.completed, st.failed,
        st.errors ++ [.critical e (cfg.screenshotDir ++ "/" ++ "critical_error"
          ++ "_" ++ env.timestamp st.shots ++ ".png")]⟩,
       st.attempted, st.reported⟩ := by
  unfold fatalExit
  rw [take_screenshot_pageDead]

theorem run_browserFatal (cfg : RunConfig) (env : RunEnv) (e : String)
    (h : env.browserStartError = some e) :
    run cfg env =
      ⟨.ok ⟨false, 0, 0, 0, [.critical e (cfg.screenshotDir ++ "/"
        ++ "critical_error" ++ "_" ++ env.timestamp 0 ++ ".png")]⟩,
       [], []⟩ := by
  unfold run
  rw [h]
  dsimp only
  rw [fatalExit_pageDead]
  rfl

theorem run_loginFatal (cfg : RunConfig) (env : RunEnv) (e : String)
    (hb : env.browserStartError = none)
    (hl : step_login env.login cfg.salonInfo = .error e)
    (hs : env.screenshotError 0 = none) :
    run cfg env =
      ⟨.ok ⟨false, 0, 0, 0, [.critical e (cfg.screenshotDir ++ "/"
        ++ "critical_error" ++ "_" ++ env.timestamp 0 ++ ".png")]⟩,
       [], []⟩ := by
  unfold run
  rw [hb]
  dsimp only
  rw [hl]
  dsimp only
  rw [fatalExit_noError cfg env e 0 initSt hs]
  rfl

theorem run_datasetFatal (cfg : RunConfig) (env : RunEnv) (e : String)
    (hb : env.browserStartError = none)
    (hl : step_login env.login cfg.salonInfo = .ok ())
    (hds : env.datasetLoad = .error e)
    (hs : env.screenshotError 0 = none) :
    run cfg env =
      ⟨.ok ⟨false, 0, 0, 0, [.critical e (cfg.screenshotDir ++ "/"
        ++ "critical_error" ++ "_" ++ env.timestamp 0 ++ ".png")]⟩,
       [], []⟩ := by
  unfold run
  rw [hb]
  dsimp only
  rw [hl]
  dsimp only
  rw [hds]
  dsimp only
  rw [fatalExit_noError cfg env e 0 initSt hs]
  rfl

theorem run_navFatal (cfg : RunConfig) (env : RunEnv) (e : String)
    (rows : List StyleRow)
    (hb : env.browserStartError = none)
    (hl : step_login env.login cfg.salonInfo = .ok ())
    (hds : env.datasetLoad = .ok rows)
    (hnav : step_navigate env = .error e)
    (hs : env.screenshotError 0 = none) :
    run cfg env =
      ⟨.ok ⟨false, rows.length, 0, 0, [.critical e (cfg.screenshotDir ++ "/"
        ++ "critical_error" ++ "_" ++ env.timestamp 0 ++ ".png")]⟩,
       [], []⟩ := by
  unfold run
  rw [hb]
  dsimp only
  rw [hl]
  dsimp only
  rw [hds]
  dsimp only
  rw [hnav]
  dsimp only
  rw [fatalExit_noError cfg env e rows.length initSt hs]
  rfl

theorem run_entersLoop (cfg : RunConfig) (env : RunEnv)
    (rows : List StyleRow)
    (hb : env.browserStartError = none)
    (hl : step_login env.login cfg.salonInfo = .ok ())
    (hds : env.datasetLoad = .ok rows)
    (hnav : step_navigate env = .ok ()) :
    run cfg env =
      match runLoop cfg env true rows.length (rows.drop cfg.startFromRow)
          cfg.startFromRow initSt with
      | .fatal e st => fatalExit cfg env true e rows.length st
      | .done st => finishRun env rows.length st
      | .interrupted st => finishRun env rows.length st := by
  unfold run
  rw [hb]
  dsimp only
  rw [hl]
  dsimp only
  rw [hds]
  dsimp only
  rw [hnav]

theorem finishRun_result (env : RunEnv) (total : Nat) (st : LoopSt) :
    (finishRun env total st).result =
      .ok ⟨true, total, st.completed, st.failed, st.errors⟩ := by
  unfold finishRun
  cases env.callback <;> rfl

theorem finishRun_attempted (env : RunEnv) (total : Nat) (st : LoopSt) :
    (finishRun env total st).attempted = st.attempted := by
  unfold finishRun
  cases env.callback <;> rfl

theorem fatalExit_attempted (cfg : RunConfig) (env : RunEnv) (pl : Bool)
    (e : String) (total : Nat) (st : LoopSt) :
    (fatalExit cfg env pl e total st).attempted = st.attempted := by
  unfold fatalExit
  split <;> rfl

theorem fatalExit_result (cfg : RunConfig) (env : RunEnv) (pl : Bool)
    (e : String) (total : Nat) (st : LoopSt) (r : RunResult)
    (h : (fatalExit cfg env pl e total st).result = .ok r) :
    r = ⟨false, total, st.completed, st.failed,
      st.errors ++ [.critical e (cfg.screenshotDir ++ "/" ++ "critical_error"
        ++ "_" ++ env.timestamp st.shots ++ ".png")]⟩ := by
  unfold fatalExit at h
  cases hts : take_screenshot cfg env pl st.shots "critical_error" with
  | error m => rw [hts] at h; simp at h
  | ok p =>
    rw [hts] at h
    simp at h
    rw [take_screenshot_ok_path cfg env pl st.shots _ p hts] at h
    exact h.symm

theorem rowIter_err (cfg : RunConfig) (env : RunEnv) (idx : Nat)
    (row : StyleRow) (st : LoopSt) (e : String) (b : Bool)
    (h : processRow cfg env idx row = (b, .error e))
    (hs : env.screenshotError st.shots = none) :
    rowIter cfg env true idx row st = .ok ⟨st.completed, st.failed + 1,
      st.errors ++ [.rowError idx ((row.styleName).getD "Unknown") e
        (cfg.screenshotDir ++ "/" ++ ("error_row_" ++ decRepr idx) ++ "_"
          ++ env.timestamp st.shots ++ ".png")],
      st.shots + 1, st.attempted ++ (if b then [idx] else []),
      st.reported⟩ := by
  unfold rowIter
  rw [h]
  cases b <;> simp [take_screenshot_of_noError cfg env st.shots _ hs]

theorem rowIter_shotFail (cfg : RunConfig) (env : RunEnv) (idx : Nat)
    (row : StyleRow) (st : LoopSt) (e : String) (b : Bool) (m : String)
    (h : processRow cfg env idx row = (b, .error e))
    (hs : env.screenshotError st.shots = some m) :
    rowIter cfg env true idx row st = .error (m,
      ⟨st.completed, st.failed, st.errors, st.shots + 1,
       st.attempted ++ (if b then [idx] else []), st.reported⟩) := by
  unfold rowIter
  rw [h]
  cases b <;> simp [take_screenshot, hs]

/-- `List.find?` returns the first element satisfying the predicate:
there is an index holding the result such that every earlier index
fails the predicate. -/
theorem find?_first_index {α : Type} (p : α → Bool) :
    ∀ (l : List α) (r : α), l.find? p = some r →
    ∃ n, ∃ h : n < l.length, l.get ⟨n, h⟩ = r ∧ p r = true
      ∧ ∀ m (hm : m < n), p (l.get ⟨m, by omega⟩) = false := by
  intro l
  induction l with
  | nil => intro r h; simp at h
  | cons a t ih =>
    intro r h
    rw [List.find?_cons] at h
    cases hpa : p a with
    | true =>
      rw [hpa] at h
      simp at h
      subst h
      exact ⟨0, by simp, rfl, hpa, by intro m hm; omega⟩
    | false =>
      rw [hpa] at h
      rcases ih r h with ⟨n, hn, hget, hp, hprev⟩
      refine ⟨n + 1, by simp; omega, by simpa using hget, hp, ?_⟩
      intro m hm
      cases m with
      | zero => simpa using hpa
      | succ m => simpa using hprev m (by omega)

/-- The row loop over a dataset whose rows all succeed except one,
which raises a row-level error, with screenshots succeeding and the
callback (if any) continuing. -/
theorem runLoop_oneBad_seg (cfg : RunConfig) (env : RunEnv) (N : Nat)
    (as : List StyleRow) (b : StyleRow) (cs : List StyleRow) (j : Nat)
    (bj : Bool) (ej : String)
    (hlen : as.length = j)
    (hrowsA : ∀ i r, as[i]? = some r →
        processRow cfg env (0 + i) r = (true, .ok ()))
    (hrowb : processRow cfg env j b = (bj, .error ej))
    (hrowsC : ∀ i r, cs[i]? = some r →
        processRow cfg env (j + 1 + i) r = (true, .ok ()))
    (hshot0 : env.screenshotError 0 = none)
    (hcb : ∀ cb n c t, env.callback = some cb → cb n c t = true) :
    ∃ rep, runLoop cfg env true N (as ++ b :: cs) 0 initSt =
      .done ⟨j + cs.length, 1,
        [.rowError j ((b.styleName).getD "Unknown") ej
          (cfg.screenshotDir ++ "/" ++ ("error_row_" ++ decRepr j) ++ "_"
            ++ env.timestamp 0 ++ ".png")],
        1, List.range' 0 j ++ (if bj then [j] else [])
          ++ List.range' (j + 1) cs.length, rep⟩ := by
  have hA := runLoop_allOk cfg env true N as 0 initSt hrowsA
    (fun cb t hcbeq _ => hcb cb _ _ _ hcbeq)
  cases hcbE : env.callback with
  | none =>
    refine ⟨[], ?_⟩
    rw [runLoop_append, hA]
    dsimp only
    simp only [initSt, Nat.zero_add, List.nil_append, hlen]
    rw [runLoop_cons]
    rw [cbGate_none env N _ hcbE]
    dsimp only
    rw [rowIter_err cfg env j b
      ⟨j, 0, [], 0, List.range' 0 j, reportsOf env 0 N j⟩ ej bj hrowb hshot0]
    dsimp only
    simp only [Nat.zero_add, List.nil_append]
    rw [runLoop_allOk cfg env true N cs (j + 1)
      ⟨j, 1, [.rowError j ((b.styleName).getD "Unknown") ej
          (cfg.screenshotDir ++ "/" ++ ("error_row_" ++ decRepr j) ++ "_"
            ++ env.timestamp 0 ++ ".png")],
        1, List.range' 0 j ++ (if bj then [j] else []),
        reportsOf env 0 N j⟩ hrowsC
      (fun cb t hcbeq _ => hcb cb _ _ _ hcbeq)]
    simp [reportsOf, hcbE]
  | some cb =>
    refine ⟨reportsOf env 0 N j ++ [(j, N)]
      ++ reportsOf env j N cs.length, ?_⟩
    rw [runLoop_append, hA]
    dsimp only
    simp only [initSt, Nat.zero_add, List.nil_append, hlen]
    rw [runLoop_cons]
    rw [cbGate_some_true env N
      ⟨j, 0, [], 0, List.range' 0 j, reportsOf env 0 N j⟩ cb hcbE
      (hcb cb _ _ _ hcbE)]
    dsimp only
    rw [rowIter_err cfg env j b
      ⟨j, 0, [], 0, List.range' 0 j, reportsOf env 0 N j ++ [(j, N)]⟩
      ej bj hrowb hshot0]
    dsimp only
    simp only [Nat.zero_add, List.nil_append]
    rw [runLoop_allOk cfg env true N cs (j + 1)
      ⟨j, 1, [.rowError j ((b.styleName).getD "Unknown") ej
          (cfg.screenshotDir ++ "/" ++ ("error_row_" ++ decRepr j) ++ "_"
            ++ env.timestamp 0 ++ ".png")],
        1, List.range' 0 j ++ (if bj then [j] else []),
        reportsOf env 0 N j ++ [(j, N)]⟩ hrowsC
      (fun cb t hcbeq _ => hcb cb _ _ _ hcbeq)]

/-- `run` on a dataset with exactly one bad row `j`: partial success
with `completed = N - 1`, `failed = 1`, exactly one row-level error
record carrying index `j`, and every row after `j` still attempted. -/
theorem run_oneBad (cfg : RunConfig) (env : RunEnv) (rows : List StyleRow)
    (j : Nat) (bj : Bool) (ej : String)
    (hb : env.browserStartError = none)
    (hl : step_login env.login cfg.salonInfo = .ok ())
    (hds : env.datasetLoad = .ok rows)
    (hnav : step_navigate env = .ok ())
    (hk : cfg.startFromRow = 0)
    (hj : j < rows.length)
    (hrowj : processRow cfg env j (rows.get ⟨j, hj⟩) = (bj, .error ej))
    (hrows : ∀ i r, rows[i]? = some r → i ≠ j →
        processRow cfg env i r = (true, .ok ()))
    (hshot0 : env.screenshotError 0 = none)
    (hcb : ∀ cb n c t, env.callback = some cb → cb n c t = true) :
    (run cfg env).result = .ok ⟨true, rows.length, rows.length - 1, 1,
      [.rowError j (((rows.get ⟨j, hj⟩).styleName).getD "Unknown") ej
        (cfg.screenshotDir ++ "/" ++ ("error_row_" ++ decRepr j) ++ "_"
          ++ env.timestamp 0 ++ ".png")]⟩
    ∧ ∀ i, j < i → i < rows.length → i ∈ (run cfg env).attempted := by
  have hsplit : rows = rows.take j ++ rows.get ⟨j, hj⟩ :: rows.drop (j + 1) := by
    conv_lhs => rw [← List.take_append_drop j rows]
    rw [List.drop_eq_getElem_cons hj]
    simp [List.get_eq_getElem]
  have hlenA : (rows.take j).length = j := by
    simp [List.length_take]
    omega
  have hrowsA : ∀ i r, (rows.take j)[i]? = some r →
      processRow cfg env (0 + i) r = (true, .ok ()) := by
    intro i r h
    have hij : i < j := by
      by_contra hge
      have hnone : (rows.take j)[i]? = none := by
        apply List.getElem?_eq_none
        omega
      rw [hnone] at h
      cases h
    rw [List.getElem?_take] at h
    rw [if_pos hij] at h
    have h3 := hrows i r h (by omega)
    simpa using h3
  have hrowsC : ∀ i r, (rows.drop (j + 1))[i]? = some r →
      processRow cfg env (j + 1 + i) r = (true, .ok ()) := by
    intro i r h
    rw [List.getElem?_drop] at h
    exact hrows (j + 1 + i) r h (by omega)
  rcases runLoop_oneBad_seg cfg env rows.length (rows.take j)
      (rows.get ⟨j, hj⟩) (rows.drop (j + 1)) j bj ej hlenA hrowsA hrowj
      hrowsC hshot0 hcb with ⟨rep, hloop⟩
  have hloop2 := (congrArg
    (fun l => runLoop cfg env true rows.length l 0 initSt) hsplit).trans hloop
  rw [run_entersLoop cfg env rows hb hl hds hnav, hk]
  simp only [List.drop_zero]
  rw [hloop2]
  dsimp only
  constructor
  · rw [finishRun_result]
    have hc : j + (rows.drop (j + 1)).length = rows.length - 1 := by
      simp [List.length_drop]
      omega
    rw [show ((⟨j + (rows.drop (j + 1)).length, 1,
      [.rowError j (((rows.get ⟨j, hj⟩).styleName).getD "Unknown") ej
        (cfg.screenshotDir ++ "/" ++ ("error_row_" ++ decRepr j) ++ "_"
          ++ env.timestamp 0 ++ ".png")],
      1, List.range' 0 j ++ (if bj then [j] else [])
        ++ List.range' (j + 1) (rows.drop (j + 1)).length,
      rep⟩ : LoopSt)).completed = j + (rows.drop (j + 1)).length from rfl, hc]
  · intro i hji hiN
    rw [finishRun_attempted]
    have hmem : i ∈ List.range' (j + 1) ((rows.drop (j + 1)).length) := by
      rw [List.mem_range'_1]
      simp [List.length_drop]
      omega
    exact List.mem_append.mpr (Or.inr hmem)

/-! ### Claim theorems -/

/-- C1 (counterexample): the claim says a robot-detection trigger at
any point — including inside the per-row submission step — aborts the
run with `success == false` and exactly one fatal error record.  In
`envC1` the guard fires at row 0's register-button click
(`registerClick = robotDetected`), yet the run returns
`success == true`, records the trigger as row 0's row-level failure,
and still attempts row 1. -/
theorem C1_counterexample :
    (envC1.rowEnv 0).registerClick = .robotDetected
    ∧ run cfg0 envC1 =
      ⟨.ok ⟨true, 2, 1, 1, [.rowError 0 "s0" "Robot detection triggered"
        "shots/error_row_0_T0.png"]⟩, [0, 1], []⟩ :=
  ⟨rfl, by rfl⟩

/-- C4 (code bug): evaluating the task layer at the failing input.  A
five-row job run in one pass persists `completed_items = 5`; the same
job interrupted right after row 0 (persisting INTERRUPTED with
`completed_items = 1`) and then resumed from that offset persists
`completed_items = 4`, because the progress callback writes the
resumed run's local completed count over the global one. -/
theorem C4_code_bug_eval :
    (execute_style_post cfg0 envOk5 sigNone ⟨"PENDING", 0⟩).1 = ⟨"SUCCESS", 5⟩
    ∧ (execute_style_post cfg0 envOk5 sigStop ⟨"PENDING", 0⟩).1
        = ⟨"INTERRUPTED", 1⟩
    ∧ (execute_style_post cfg0 envOk5 sigNone ⟨"PENDING", 1⟩).1
        = ⟨"SUCCESS", 4⟩ :=
  ⟨by rfl, by rfl, by rfl⟩

/-- C6 (counterexample): the claim says a row missing the
image-reference field is recorded with status SKIPPED, not FAILURE.
In `envC6` row 0 has no `画像名` value; the run does continue (row 1
is attempted and the run succeeds), but row 0 is recorded as a
row-level *failure*: `failed = 1` with a `rowError` record carrying
the missing-column message — no SKIPPED status exists anywhere in the
engine's output. -/
theorem C6_counterexample :
    (rowsC6.get ⟨0, by decide⟩).imageName = none
    ∧ run cfg0 envC6 =
      ⟨.ok ⟨true, 2, 1, 1, [.rowError 0 "s0"
        "\x27画像名\x27 column not specified in data"
        "shots/error_row_0_T0.png"]⟩, [1], []⟩ :=
  ⟨rfl, by rfl⟩

/-- C7 (counterexample): the claim says the salon row is selected by
exact id-match first, with name-match only as a fallback.  With rows
`[(id 2, name A), (id 1, name B)]` and hint `{id 1, name A}`, id-first
selection would pick the second row (id 1), but the code scans rows in
listed order checking id-or-name per row and picks the first row (its
name matches). -/
theorem C7_counterexample :
    selectSalon salonRowsC7 salonInfoC7 = .ok ⟨"2", "A"⟩
    ∧ selectSalonSpec salonRowsC7 salonInfoC7 = .ok ⟨"1", "B"⟩
    ∧ (⟨"2", "A"⟩ : SalonRow) ≠ ⟨"1", "B"⟩ :=
  ⟨by rfl, by rfl, by decide⟩

/-- C8 (counterexample): the claim says a failure of the screenshot
capture is swallowed and cannot change the run's outcome.  `envC8` and
`envC8ok` differ only in whether `page.screenshot` raises: with it
raising during row 0's failure handler the run aborts fatally
(`success = false`, the row not counted as failed); with it succeeding
the same run is a partial success (`success = true, failed = 1`).
With the critical-handler screenshot also raising (`envC8both`), the
exception escapes `run` altogether. -/
theorem C8_counterexample :
    run cfg0 envC8 = ⟨.ok ⟨false, 1, 0, 0,
      [.critical "Page crashed" "shots/critical_error_T1.png"]⟩, [], []⟩
    ∧ run cfg0 envC8ok = ⟨.ok ⟨true, 1, 0, 1,
      [.rowError 0 "s0" "Image not found: img/a.jpg"
        "shots/error_row_0_T0.png"]⟩, [], []⟩
    ∧ (run cfg0 envC8both).result = .error "Disk full" :=
  ⟨by rfl, by rfl, by rfl⟩

/-- C2: for a dataset in which exactly one row `j` raises a row-level
failure and every other row succeeds (with benign infrastructure),
`run` returns `completed = N - 1`, `failed = 1` and exactly one error
record whose row index is `j`; every row after `j` is still
attempted. -/
theorem C2_row_failure_isolated (cfg : RunConfig) (env : RunEnv)
    (rows : List StyleRow) (j : Nat) (bj : Bool) (ej : String)
    (hb : env.browserStartError = none)
    (hl : step_login env.login cfg.salonInfo = .ok ())
    (hds : env.datasetLoad = .ok rows)
    (hnav : step_navigate env = .ok ())
    (hk : cfg.startFromRow = 0)
    (hj : j < rows.length)
    (hrowj : processRow cfg env j (rows.get ⟨j, hj⟩) = (bj, .error ej))
    (hrows : ∀ i r, rows[i]? = some r → i ≠ j →
        processRow cfg env i r = (true, .ok ()))
    (hshot0 : env.screenshotError 0 = none)
    (hcb : ∀ cb n c t, env.callback = some cb → cb n c t = true) :
    (run cfg env).result = .ok ⟨true, rows.length, rows.length - 1, 1,
      [.rowError j (((rows.get ⟨j, hj⟩).styleName).getD "Unknown") ej
        (cfg.screenshotDir ++ "/" ++ ("error_row_" ++ decRepr j) ++ "_"
          ++ env.timestamp 0 ++ ".png")]⟩
    ∧ ∀ i, j < i → i < rows.length → i ∈ (run cfg env).attempted :=
  run_oneBad cfg env rows j bj ej hb hl hds hnav hk hj hrowj hrows
    hshot0 hcb

/-- C2 (witness): the theorem applied to a concrete two-row dataset
whose second row references a missing image file. -/
theorem C2_witness :
    (run cfg0 envC2w).result = .ok ⟨true, 2, 1, 1,
      [.rowError 1 "s1" "Image not found: img/missing.jpg"
        "shots/error_row_1_T0.png"]⟩
    ∧ ∀ i, 1 < i → i < 2 → i ∈ (run cfg0 envC2w).attempted :=
  C2_row_failure_isolated cfg0 envC2w rowsC2w 1 false
    "Image not found: img/missing.jpg" rfl (by rfl) rfl (by rfl) rfl
    (by decide) (by rfl)
    (by
      intro i r h hne
      cases i with
      | zero =>
        simp [rowsC2w] at h
        subst h
        rfl
      | succ i =>
        cases i with
        | zero => exact absurd rfl hne
        | succ i => simp [rowsC2w] at h)
    rfl (fun cb n c t h => Option.noConfusion h)

/-- C6 (amended): a row missing the required image-reference field
does not abort the session — the run continues, succeeds overall, and
records that row as a row-level failure (`failed` incremented, one
`rowError` record carrying the missing-column message); no SKIPPED
status is ever recorded by the engine. -/
theorem C6_missing_field_row_failure (cfg : RunConfig) (env : RunEnv)
    (rows : List StyleRow) (j : Nat)
    (hb : env.browserStartError = none)
    (hl : step_login env.login cfg.salonInfo = .ok ())
    (hds : env.datasetLoad = .ok rows)
    (hnav : step_navigate env = .ok ())
    (hk : cfg.startFromRow = 0)
    (hj : j < rows.length)
    (himg : (rows.get ⟨j, hj⟩).imageName = none)
    (hrows : ∀ i r, rows[i]? = some r → i ≠ j →
        processRow cfg env i r = (true, .ok ()))
    (hshot0 : env.screenshotError 0 = none)
    (hcb : ∀ cb n c t, env.callback = some cb → cb n c t = true) :
    (run cfg env).result = .ok ⟨true, rows.length, rows.length - 1, 1,
      [.rowError j (((rows.get ⟨j, hj⟩).styleName).getD "Unknown")
        "\x27画像名\x27 column not specified in data"
        (cfg.screenshotDir ++ "/" ++ ("error_row_" ++ decRepr j) ++ "_"
          ++ env.timestamp 0 ++ ".png")]⟩
    ∧ ∀ i, j < i → i < rows.length → i ∈ (run cfg env).attempted := by
  have hrowj : processRow cfg env j (rows.get ⟨j, hj⟩) =
      (false, .error "\x27画像名\x27 column not specified in data") := by
    unfold processRow
    rw [himg]
  exact run_oneBad cfg env rows j false _ hb hl hds hnav hk hj hrowj
    hrows hshot0 hcb

/-- C6 (witness): the amended theorem applied to the concrete
dataset whose first row lacks the image field. -/
theorem C6_witness :
    (run cfg0 envC6).result = .ok ⟨true, 2, 1, 1,
      [.rowError 0 "s0" "\x27画像名\x27 column not specified in data"
        "shots/error_row_0_T0.png"]⟩
    ∧ ∀ i, 0 < i → i < 2 → i ∈ (run cfg0 envC6).attempted :=
  C6_missing_field_row_failure cfg0 envC6 rowsC6 0 rfl (by rfl) rfl
    (by rfl) rfl (by decide) rfl
    (by
      intro i r h hne
      cases i with
      | zero => exact absurd rfl hne
      | succ i =>
        cases i with
        | zero =>
          simp [rowsC6] at h
          subst h
          rfl
        | succ i => simp [rowsC6] at h)
    rfl (fun cb n c t h => Option.noConfusion h)

/-- The attempted-row trace of any `run`: empty when the run never
reaches the row loop, else exactly the loop's trace. -/
theorem run_attempted_shape (cfg : RunConfig) (env : RunEnv) :
    (run cfg env).attempted = [] ∨
    ∃ rows, env.datasetLoad = .ok rows ∧
      (run cfg env).attempted =
        (runLoop cfg env true rows.length (rows.drop cfg.startFromRow)
          cfg.startFromRow initSt).state.attempted := by
  unfold run
  cases hbs : env.browserStartError with
  | some e => exact Or.inl (fatalExit_attempted cfg env false e 0 initSt)
  | none =>
    dsimp only
    cases hlg : step_login env.login cfg.salonInfo with
    | error e => exact Or.inl (fatalExit_attempted cfg env true e 0 initSt)
    | ok u =>
      cases u
      dsimp only
      cases hds : env.datasetLoad with
      | error e => exact Or.inl (fatalExit_attempted cfg env true e 0 initSt)
      | ok rows =>
        dsimp only
        cases hnav : step_navigate env with
        | error e =>
          exact Or.inl (fatalExit_attempted cfg env true e rows.length initSt)
        | ok u =>
          cases u
          dsimp only
          refine Or.inr ⟨rows, rfl, ?_⟩
          cases hexit : runLoop cfg env true rows.length
              (rows.drop cfg.startFromRow) cfg.startFromRow initSt with
          | done st =>
            dsimp only
            rw [finishRun_attempted]
            rfl
          | interrupted st =>
            dsimp only
            rw [finishRun_attempted]
            rfl
          | fatal e st =>
            dsimp only
            rw [fatalExit_attempted]
            rfl

/-- C3: a run invoked with resume offset `k` over a dataset of size
`N` attempts per-row submissions only for indices in `k..N-1`, in
strictly ascending order; indices below `k` are never attempted. -/
theorem C3_resume_window (cfg : RunConfig) (env : RunEnv)
    (rows : List StyleRow) (N k : Nat)
    (hds : env.datasetLoad = .ok rows) (hN : rows.length = N)
    (hk : cfg.startFromRow = k) (hkN : k ≤ N) :
    List.Sublist (run cfg env).attempted (List.range' k (N - k))
    ∧ List.Pairwise (· < ·) (run cfg env).attempted
    ∧ ∀ i, i < k → i ∉ (run cfg env).attempted := by
  have hsub : List.Sublist (run cfg env).attempted (List.range' k (N - k)) := by
    rcases run_attempted_shape cfg env with hempty | ⟨rows2, hds2, hatt⟩
    · rw [hempty]
      exact List.nil_sublist _
    · have hr : rows2 = rows := by
        rw [hds] at hds2
        exact (Except.ok.inj hds2).symm
      subst hr
      rcases runLoop_general cfg env true rows2.length
          (rows2.drop cfg.startFromRow) cfg.startFromRow initSt with
        ⟨dc, df, ds, nerr, natt, nrep, hstate, hle, hlen, hsub2⟩
      rw [hatt, hstate]
      have hlen3 : (rows2.drop cfg.startFromRow).length = N - k := by
        rw [List.length_drop, hN, hk]
      rw [hlen3, hk] at hsub2
      simpa [initSt] using hsub2
  refine ⟨hsub, ?_, ?_⟩
  · exact List.Pairwise.sublist hsub (List.pairwise_lt_range' k (N - k))
  · intro i hik hmem
    have h2 := List.Sublist.subset hsub hmem
    rw [List.mem_range'_1] at h2
    omega

/-- C3 (witness): the theorem applied to a two-row dataset with
resume offset 1. -/
theorem C3_witness :
    List.Sublist (run cfgK1 envOk).attempted (List.range' 1 1)
    ∧ List.Pairwise (· < ·) (run cfgK1 envOk).attempted
    ∧ ∀ i, i < 1 → i ∉ (run cfgK1 envOk).attempted :=
  C3_resume_window cfgK1 envOk rowsC1 2 1 rfl rfl rfl (by omega)

/-- C5: with benign infrastructure and rows 0..i all succeeding, if
the installed callback returns true at invocations 0..i and false at
invocation i+1 (the check before row i+1), the run stops with
`completed = i + 1`, `success = true`, no failures, and exactly rows
0..i attempted — rows i+1..N-1 are never attempted and no submission
begins after the stop is observed. -/
theorem C5_cooperative_cancel (cfg : RunConfig) (env : RunEnv)
    (rows : List StyleRow) (i : Nat) (cb : Nat → Nat → Nat → Bool)
    (hb : env.browserStartError = none)
    (hl : step_login env.login cfg.salonInfo = .ok ())
    (hds : env.datasetLoad = .ok rows)
    (hnav : step_navigate env = .ok ())
    (hk : cfg.startFromRow = 0)
    (hi : i + 1 < rows.length)
    (hrows : ∀ m r, rows[m]? = some r → m ≤ i →
        processRow cfg env m r = (true, .ok ()))
    (hcbE : env.callback = some cb)
    (hcbT : ∀ n c t, n ≤ i → cb n c t = true)
    (hcbF : ∀ c t, cb (i + 1) c t = false) :
    (run cfg env).result = .ok ⟨true, rows.length, i + 1, 0, []⟩
    ∧ (run cfg env).attempted = List.range' 0 (i + 1) := by
  have hlenT : (rows.take (i + 1)).length = i + 1 := by
    simp [List.length_take]
    omega
  have hA := runLoop_allOk cfg env true rows.length (rows.take (i + 1)) 0
    initSt
    (by
      intro m r h
      have hmlt : m < i + 1 := by
        by_contra hge
        have hnone : (rows.take (i + 1))[m]? = none := by
          apply List.getElem?_eq_none
          omega
        rw [hnone] at h
        cases h
      rw [List.getElem?_take, if_pos hmlt] at h
      simpa using hrows m r h (by omega))
    (by
      intro cb2 t hcbeq ht
      rw [hcbE] at hcbeq
      have h2 : cb2 = cb := Option.some.inj hcbeq.symm
      rw [h2]
      rw [hlenT] at ht
      exact hcbT _ _ _ (by simp [initSt]; omega))
  have hsplit : rows = rows.take (i + 1)
      ++ rows.get ⟨i + 1, hi⟩ :: rows.drop (i + 2) := by
    conv_lhs => rw [← List.take_append_drop (i + 1) rows]
    rw [List.drop_eq_getElem_cons hi]
    simp [List.get_eq_getElem]
  have hrep : (reportsOf env 0 rows.length (i + 1)).length = i + 1 := by
    simp [reportsOf, hcbE]
  have hloop : runLoop cfg env true rows.length rows 0 initSt =
      .interrupted ⟨i + 1, 0, [], 0, List.range' 0 (i + 1),
        reportsOf env 0 rows.length (i + 1) ++ [(i + 1, rows.length)]⟩ := by
    have hstep := congrArg
      (fun l => runLoop cfg env true rows.length l 0 initSt) hsplit
    rw [show runLoop cfg env true rows.length rows 0 initSt
        = runLoop cfg env true rows.length
            (rows.take (i + 1) ++ rows.get ⟨i + 1, hi⟩ :: rows.drop (i + 2))
            0 initSt from hstep,
      runLoop_append, hA]
    dsimp only
    simp only [initSt, Nat.zero_add, List.nil_append, hlenT]
    rw [runLoop_cons]
    rw [cbGate_some_false env rows.length
      ⟨i + 1, 0, [], 0, List.range' 0 (i + 1),
        reportsOf env 0 rows.length (i + 1)⟩ cb hcbE
      (by
        show cb (reportsOf env 0 rows.length (i + 1)).length (i + 1)
          rows.length = false
        rw [hrep]
        exact hcbF _ _)]
  rw [run_entersLoop cfg env rows hb hl hds hnav, hk]
  simp only [List.drop_zero]
  rw [hloop]
  dsimp only
  constructor
  · rw [finishRun_result]
  · rw [finishRun_attempted]

/-- C5 (witness): the theorem applied to a three-row dataset with a
callback that stops at invocation index 1. -/
theorem C5_witness :
    (run cfg0 envC5w).result = .ok ⟨true, 3, 1, 0, []⟩
    ∧ (run cfg0 envC5w).attempted = List.range' 0 1 :=
  C5_cooperative_cancel cfg0 envC5w rows3 0 (fun n _ _ => !(n == 1))
    rfl (by rfl) rfl (by rfl) rfl (by decide)
    (by
      intro m r h hm
      have hm0 : m = 0 := by omega
      subst hm0
      simp [rows3] at h
      subst h
      rfl)
    rfl
    (by
      intro n c t hn
      have hn0 : n = 0 := by omega
      subst hn0
      rfl)
    (fun c t => rfl)

/-- C10: every `results` dict `run` returns satisfies the structural
invariant: `completed + failed ≤ total`, and the errors list has
exactly `failed` entries when `success` is true and exactly
`failed + 1` entries when `success` is false (the fatal handler
appends exactly one extra record and is the only way `success`
becomes false). -/
theorem C10_result_invariant (cfg : RunConfig) (env : RunEnv)
    (r : RunResult) (h : (run cfg env).result = .ok r) :
    r.completed + r.failed ≤ r.total
    ∧ (r.success = true → r.errors.length = r.failed)
    ∧ (r.success = false → r.errors.length = r.failed + 1) := by
  unfold run at h
  cases hbs : env.browserStartError with
  | some e =>
    rw [hbs] at h
    dsimp only at h
    have hr := fatalExit_result cfg env false e 0 initSt r h
    subst hr
    exact ⟨by simp [initSt], by simp, by simp [initSt]⟩
  | none =>
    rw [hbs] at h
    dsimp only at h
    cases hlg : step_login env.login cfg.salonInfo with
    | error e =>
      rw [hlg] at h
      dsimp only at h
      have hr := fatalExit_result cfg env true e 0 initSt r h
      subst hr
      exact ⟨by simp [initSt], by simp, by simp [initSt]⟩
    | ok u =>
      cases u
      rw [hlg] at h
      dsimp only at h
      cases hds : env.datasetLoad with
      | error e =>
        rw [hds] at h
        dsimp only at h
        have hr := fatalExit_result cfg env true e 0 initSt r h
        subst hr
        exact ⟨by simp [initSt], by simp, by simp [initSt]⟩
      | ok rows =>
        rw [hds] at h
        dsimp only at h
        cases hnav : step_navigate env with
        | error e =>
          rw [hnav] at h
          dsimp only at h
          have hr := fatalExit_result cfg env true e rows.length initSt r h
          subst hr
          exact ⟨by simp [initSt], by simp, by simp [initSt]⟩
        | ok u =>
          cases u
          rw [hnav] at h
          dsimp only at h
          rcases runLoop_general cfg env true rows.length
              (rows.drop cfg.startFromRow) cfg.startFromRow initSt with
            ⟨dc, df, ds, nerr, natt, nrep, hstate, hle, hlen, hsub⟩
          have hlen2 : dc + df ≤ rows.length :=
            le_trans hle (by rw [List.length_drop]; omega)
          cases hexit : runLoop cfg env true rows.length
              (rows.drop cfg.startFromRow) cfg.startFromRow initSt with
          | done st =>
            rw [hexit] at h hstate
            dsimp only at h
            rw [finishRun_result] at h
            simp only [LoopExit.state] at hstate
            have hr : r = ⟨true, rows.length, st.completed, st.failed,
                st.errors⟩ := (Except.ok.inj h).symm
            subst hr
            subst hstate
            refine ⟨by simp [initSt]; omega, ?_, by simp⟩
            intro _
            simp [initSt]
            omega
          | interrupted st =>
            rw [hexit] at h hstate
            dsimp only at h
            rw [finishRun_result] at h
            simp only [LoopExit.state] at hstate
            have hr : r = ⟨true, rows.length, st.completed, st.failed,
                st.errors⟩ := (Except.ok.inj h).symm
            subst hr
            subst hstate
            refine ⟨by simp [initSt]; omega, ?_, by simp⟩
            intro _
            simp [initSt]
            omega
          | fatal e st =>
            rw [hexit] at h hstate
            dsimp only at h
            have hr := fatalExit_result cfg env true e rows.length st r h
            subst hr
            simp only [LoopExit.state] at hstate
            subst hstate
            refine ⟨by simp [initSt]; omega, by simp, ?_⟩
            intro _
            simp [initSt]
            omega

/-- C10 (witness): the invariant read off a concrete partial-success
run (one failed row out of two). -/
theorem C10_witness :
    resC10.completed + resC10.failed ≤ resC10.total
    ∧ (resC10.success = true → resC10.errors.length = resC10.failed)
    ∧ (resC10.success = false → resC10.errors.length = resC10.failed + 1) :=
  C10_result_invariant cfg0 envC1 resC10 (by rfl)

/-- Distinctness of screenshot paths between two row-shaped error
records with strictly ordered row indices. -/
theorem rowshape_screens_ne (cfg : RunConfig) (env : RunEnv)
    (hts : ∀ k, (env.timestamp k).length = 15) (a b : ErrorRecord)
    (hsa : RowShape cfg env a) (hsb : RowShape cfg env b)
    (hlt : rowOf a < rowOf b) : screenshotOf a ≠ screenshotOf b := by
  rcases hsa with ⟨ia, nma, ma, ka, hae⟩
  rcases hsb with ⟨ib, nmb, mb, kb, hbe⟩
  subst hae
  subst hbe
  simp only [rowOf] at hlt
  simp only [screenshotOf]
  intro heq
  have := rowshot_injective cfg.screenshotDir ia ib
    (env.timestamp ka) (env.timestamp kb) (hts ka) (hts kb) heq
  omega

/-- C9: within one run, the screenshot filenames carried by any two
error records are never equal — row-failure screenshots embed the
(unique, strictly increasing) row index in the prefix, and the
critical-error screenshot has a distinct prefix. -/
theorem C9_screens_distinct (cfg : RunConfig) (env : RunEnv)
    (r : RunResult) (hts : ∀ k, (env.timestamp k).length = 15)
    (h : (run cfg env).result = .ok r) :
    r.errors.Pairwise (fun a b => screenshotOf a ≠ screenshotOf b) := by
  unfold run at h
  cases hbs : env.browserStartError with
  | some e =>
    rw [hbs] at h
    dsimp only at h
    have hr := fatalExit_result cfg env false e 0 initSt r h
    subst hr
    simp [initSt]
  | none =>
    rw [hbs] at h
    dsimp only at h
    cases hlg : step_login env.login cfg.salonInfo with
    | error e =>
      rw [hlg] at h
      dsimp only at h
      have hr := fatalExit_result cfg env true e 0 initSt r h
      subst hr
      simp [initSt]
    | ok u =>
      cases u
      rw [hlg] at h
      dsimp only at h
      cases hds : env.datasetLoad with
      | error e =>
        rw [hds] at h
        dsimp only at h
        have hr := fatalExit_result cfg env true e 0 initSt r h
        subst hr
        simp [initSt]
      | ok rows =>
        rw [hds] at h
        dsimp only at h
        cases hnav : step_navigate env with
        | error e =>
          rw [hnav] at h
          dsimp only at h
          have hr := fatalExit_result cfg env true e rows.length initSt r h
          subst hr
          simp [initSt]
        | ok u =>
          cases u
          rw [hnav] at h
          dsimp only at h
          have hshape := runLoop_errshape cfg env true rows.length
            (rows.drop cfg.startFromRow) cfg.startFromRow initSt
            (by intro rec hrec; simp [initSt] at hrec)
            (by simp [initSt])
          cases hexit : runLoop cfg env true rows.length
              (rows.drop cfg.startFromRow) cfg.startFromRow initSt with
          | done st =>
            rw [hexit] at h hshape
            dsimp only at h
            rw [finishRun_result] at h
            have hr : r = ⟨true, rows.length, st.completed, st.failed,
                st.errors⟩ := (Except.ok.inj h).symm
            subst hr
            simp only [LoopExit.state] at hshape
            exact List.Pairwise.imp_of_mem
              (fun ha hb hlt => rowshape_screens_ne cfg env hts _ _
                (hshape.1 _ ha).1 (hshape.1 _ hb).1 hlt)
              hshape.2
          | interrupted st =>
            rw [hexit] at h hshape
            dsimp only at h
            rw [finishRun_result] at h
            have hr : r = ⟨true, rows.length, st.completed, st.failed,
                st.errors⟩ := (Except.ok.inj h).symm
            subst hr
            simp only [LoopExit.state] at hshape
            exact List.Pairwise.imp_of_mem
              (fun ha hb hlt => rowshape_screens_ne cfg env hts _ _
                (hshape.1 _ ha).1 (hshape.1 _ hb).1 hlt)
              hshape.2
          | fatal e st =>
            rw [hexit] at h hshape
            dsimp only at h
            have hr := fatalExit_result cfg env true e rows.length st r h
            subst hr
            simp only [LoopExit.state] at hshape
            dsimp only
            rw [List.pairwise_append]
            refine ⟨List.Pairwise.imp_of_mem
              (fun ha hb hlt => rowshape_screens_ne cfg env hts _ _
                (hshape.1 _ ha).1 (hshape.1 _ hb).1 hlt)
              hshape.2, by simp, ?_⟩
            intro a ha b hb
            rcases (hshape.1 a ha).1 with ⟨ia, nma, ma, ka, hae⟩
            subst hae
            rw [List.mem_singleton] at hb
            subst hb
            simp only [screenshotOf]
            intro heq
            exact rowshot_ne_critshot cfg.screenshotDir ia
              (env.timestamp ka) (env.timestamp st.shots) heq

/-- C9 (witness): the theorem applied to a run with two row failures
sharing one fixed 15-character timestamp. -/
theorem C9_witness :
    (⟨true, 2, 0, 2,
      [.rowError 0 "s0" "Image not found: img/a.jpg"
        "shots/error_row_0_20250101_000000.png",
       .rowError 1 "s1" "Image not found: img/b.jpg"
        "shots/error_row_1_20250101_000000.png"]⟩ : RunResult).errors.Pairwise
      (fun a b => screenshotOf a ≠ screenshotOf b) :=
  C9_screens_distinct cfg0 envC9w _ (fun k => rfl) (by rfl)

/-- C1 (amended): a robot-detection trigger during login or during
navigation — i.e. before the row loop — aborts the run with
`success = false`, exactly one (critical) error record and no rows
attempted; but a trigger inside the per-row submission step is caught
by the per-row handler, so with benign infrastructure the run always
returns `success = true` whatever the rows (including in-row
detection triggers). -/
theorem C1_detection_abort_scope :
    (∀ (cfg : RunConfig) (env : RunEnv),
      env.browserStartError = none →
      env.login.robotOnLoginPage = true →
      env.screenshotError 0 = none →
      run cfg env = ⟨.ok ⟨false, 0, 0, 0,
        [.critical "Robot detection on login page"
          (cfg.screenshotDir ++ "/" ++ "critical_error" ++ "_"
            ++ env.timestamp 0 ++ ".png")]⟩, [], []⟩)
    ∧ (∀ (cfg : RunConfig) (env : RunEnv) (rows : List StyleRow),
      env.browserStartError = none →
      step_login env.login cfg.salonInfo = .ok () →
      env.datasetLoad = .ok rows →
      (env.navClick1 = .robotDetected
        ∨ (env.navClick1 = .ok ∧ env.navClick2 = .robotDetected)) →
      env.screenshotError 0 = none →
      run cfg env = ⟨.ok ⟨false, rows.length, 0, 0,
        [.critical "Robot detection triggered"
          (cfg.screenshotDir ++ "/" ++ "critical_error" ++ "_"
            ++ env.timestamp 0 ++ ".png")]⟩, [], []⟩)
    ∧ (∀ (cfg : RunConfig) (env : RunEnv) (rows : List StyleRow),
      env.browserStartError = none →
      step_login env.login cfg.salonInfo = .ok () →
      env.datasetLoad = .ok rows →
      step_navigate env = .ok () →
      (∀ k, env.screenshotError k = none) →
      ∃ r, (run cfg env).result = .ok r ∧ r.success = true) := by
  refine ⟨?_, ?_, ?_⟩
  · intro cfg env hb hrobot hs
    have hl : step_login env.login cfg.salonInfo =
        .error "Robot detection on login page" := by
      simp [step_login, hrobot]
    exact run_loginFatal cfg env _ hb hl hs
  · intro cfg env rows hb hl hds hd hs
    have hnav : step_navigate env = .error "Robot detection triggered" := by
      rcases hd with h1 | ⟨h1, h2⟩
      · simp [step_navigate, h1, click_and_wait]
      · simp [step_navigate, h1, h2, click_and_wait]
    exact run_navFatal cfg env _ rows hb hl hds hnav hs
  · intro cfg env rows hb hl hds hnav hshot
    cases hexit : runLoop cfg env true rows.length
        (rows.drop cfg.startFromRow) cfg.startFromRow initSt with
    | done st =>
      refine ⟨⟨true, rows.length, st.completed, st.failed, st.errors⟩,
        ?_, rfl⟩
      rw [run_entersLoop cfg env rows hb hl hds hnav, hexit]
      dsimp only
      rw [finishRun_result]
    | interrupted st =>
      refine ⟨⟨true, rows.length, st.completed, st.failed, st.errors⟩,
        ?_, rfl⟩
      rw [run_entersLoop cfg env rows hb hl hds hnav, hexit]
      dsimp only
      rw [finishRun_result]
    | fatal e st =>
      exact absurd hexit
        (runLoop_no_fatal cfg env rows.length hshot _ _ _ _ _)

/-- C1 (witness): the amended theorem applied to concrete runs — a
robot-detection signature on the login page, one at the first
navigation hop, and one inside row 0's submission step with benign
infrastructure. -/
theorem C1_witness :
    run cfg0 envLoginRobot = ⟨.ok ⟨false, 0, 0, 0,
      [.critical "Robot detection on login page"
        "shots/critical_error_T0.png"]⟩, [], []⟩
    ∧ run cfg0 envNavRobot = ⟨.ok ⟨false, 2, 0, 0,
      [.critical "Robot detection triggered"
        "shots/critical_error_T0.png"]⟩, [], []⟩
    ∧ ∃ r, (run cfg0 envC1).result = .ok r ∧ r.success = true :=
  ⟨C1_detection_abort_scope.1 cfg0 envLoginRobot rfl rfl rfl,
   C1_detection_abort_scope.2.1 cfg0 envNavRobot rowsC1 rfl (by rfl) rfl
     (Or.inl rfl) rfl,
   C1_detection_abort_scope.2.2 cfg0 envC1 rowsC1 rfl (by rfl) rfl
     (by rfl) (fun k => rfl)⟩

/-- C7 (amended): on a multi-account selection page the script scans
the listed rows in order and clicks the first row matching the hint by
exact id *or* exact name (both checked together per row); when a row
is selected there is an index holding it all of whose predecessors
match neither; when no listed row matches, the login step raises and
the run aborts with `success = false` and a single critical error
record. -/
theorem C7_salon_selection :
    (∀ (rows : List SalonRow) (info : SalonInfo) (r : SalonRow),
      selectSalon rows info = .ok r →
      ∃ n, ∃ h : n < rows.length, rows.get ⟨n, h⟩ = r
        ∧ matchesSalon info r = true
        ∧ ∀ m (hm : m < n),
            matchesSalon info (rows.get ⟨m, by omega⟩) = false)
    ∧ (∀ (rows : List SalonRow) (info : SalonInfo),
      selectSalon rows info = .error "Salon not found"
        ↔ ∀ r ∈ rows, matchesSalon info r = false)
    ∧ (∀ (cfg : RunConfig) (env : RunEnv) (info : SalonInfo),
      env.browserStartError = none →
      env.login.robotOnLoginPage = false →
      env.login.fillError = none →
      env.login.loginClick = .ok →
      env.login.salonTablePresent = true →
      cfg.salonInfo = some info →
      (∀ r ∈ env.login.salonRows, matchesSalon info r = false) →
      env.screenshotError 0 = none →
      run cfg env = ⟨.ok ⟨false, 0, 0, 0,
        [.critical "Salon not found"
          (cfg.screenshotDir ++ "/" ++ "critical_error" ++ "_"
            ++ env.timestamp 0 ++ ".png")]⟩, [], []⟩) := by
  refine ⟨?_, ?_, ?_⟩
  · intro rows info r h
    unfold selectSalon at h
    cases hf : rows.find? (matchesSalon info) with
    | none => rw [hf] at h; simp at h
    | some r2 =>
      rw [hf] at h
      simp at h
      subst h
      exact find?_first_index (matchesSalon info) rows r2 hf
  · intro rows info
    unfold selectSalon
    cases hf : rows.find? (matchesSalon info) with
    | none =>
      simp only []
      constructor
      · intro _
        have h2 := List.find?_eq_none.mp hf
        intro r hr
        have := h2 r hr
        simpa using this
      · intro _
        trivial
    | some r2 =>
      simp only []
      constructor
      · intro h2
        cases h2
      · intro hall
        have h3 := List.find?_some hf
        have h4 : r2 ∈ rows := List.mem_of_find?_eq_some hf
        rw [hall r2 h4] at h3
        cases h3
  · intro cfg env info hb hrobot hfill hclick htable hinfo hnomatch hs
    have hsel : selectSalon env.login.salonRows info =
        .error "Salon not found" := by
      unfold selectSalon
      rw [List.find?_eq_none.mpr (by
        intro r hr
        simp [hnomatch r hr])]
    have hl : step_login env.login cfg.salonInfo =
        .error "Salon not found" := by
      unfold step_login
      rw [hrobot, hfill, hclick, htable, hinfo]
      simp [click_and_wait, hsel]
    exact run_loginFatal cfg env _ hb hl hs

/-- C7 (witness): the amended characterization applied to the
concrete C7 table (first match wins) and to a run whose selection
table matches nothing. -/
theorem C7_witness :
    (∃ n, ∃ h : n < salonRowsC7.length,
      salonRowsC7.get ⟨n, h⟩ = (⟨"2", "A"⟩ : SalonRow)
      ∧ matchesSalon salonInfoC7 ⟨"2", "A"⟩ = true
      ∧ ∀ m (hm : m < n),
          matchesSalon salonInfoC7 (salonRowsC7.get ⟨m, by omega⟩) = false)
    ∧ run cfgSalon envSalonNoMatch = ⟨.ok ⟨false, 0, 0, 0,
        [.critical "Salon not found"
          "shots/critical_error_T0.png"]⟩, [], []⟩ :=
  ⟨C7_salon_selection.1 salonRowsC7 salonInfoC7 ⟨"2", "A"⟩ (by rfl),
   C7_salon_selection.2.2 cfgSalon envSalonNoMatch ⟨some "1", some "A"⟩
     rfl rfl rfl rfl rfl rfl (by decide) rfl⟩

/-- When the first bad row's failure screenshot itself raises, the
loop exits fatally with that exception, the row not counted as
failed and no error record appended. -/
theorem runLoop_badShot_seg (cfg : RunConfig) (env : RunEnv) (N : Nat)
    (as : List StyleRow) (b : StyleRow) (cs : List StyleRow) (j : Nat)
    (bj : Bool) (ej m : String)
    (hlen : as.length = j)
    (hrowsA : ∀ i r, as[i]? = some r →
        processRow cfg env (0 + i) r = (true, .ok ()))
    (hrowb : processRow cfg env j b = (bj, .error ej))
    (hs0 : env.screenshotError 0 = some m)
    (hcb : ∀ cb n c t, env.callback = some cb → cb n c t = true) :
    ∃ st, runLoop cfg env true N (as ++ b :: cs) 0 initSt = .fatal m st
      ∧ st.completed = j ∧ st.failed = 0 ∧ st.errors = [] ∧ st.shots = 1 := by
  have hA := runLoop_allOk cfg env true N as 0 initSt hrowsA
    (fun cb t hcbeq _ => hcb cb _ _ _ hcbeq)
  cases hcbE : env.callback with
  | none =>
    refine ⟨⟨j, 0, [], 1, List.range' 0 j ++ (if bj then [j] else []),
      reportsOf env 0 N j⟩, ?_, rfl, rfl, rfl, rfl⟩
    rw [runLoop_append, hA]
    dsimp only
    simp only [initSt, Nat.zero_add, List.nil_append, hlen]
    rw [runLoop_cons, cbGate_none env N _ hcbE]
    dsimp only
    rw [rowIter_shotFail cfg env j b
      ⟨j, 0, [], 0, List.range' 0 j, reportsOf env 0 N j⟩ ej bj m
      hrowb hs0]
  | some cb =>
    refine ⟨⟨j, 0, [], 1, List.range' 0 j ++ (if bj then [j] else []),
      reportsOf env 0 N j ++ [(j, N)]⟩, ?_, rfl, rfl, rfl, rfl⟩
    rw [runLoop_append, hA]
    dsimp only
    simp only [initSt, Nat.zero_add, List.nil_append, hlen]
    rw [runLoop_cons, cbGate_some_true env N
      ⟨j, 0, [], 0, List.range' 0 j, reportsOf env 0 N j⟩ cb hcbE
      (hcb cb _ _ _ hcbE)]
    dsimp only
    rw [rowIter_shotFail cfg env j b
      ⟨j, 0, [], 0, List.range' 0 j, reportsOf env 0 N j ++ [(j, N)]⟩
      ej bj m hrowb hs0]

/-- C8 (amended): screenshot capture has no exception handling of its
own.  When no page exists (browser never started) the capture is
skipped and a path is still returned without error; but a failure of
the `page.screenshot` call inside a row-level failure handler
escalates that row's failure to a fatal abort — `success = false`,
the screenshot exception as the single critical record, the row not
counted as failed — and a failure inside the fatal handler itself
propagates out of `run`. -/
theorem C8_screenshot_escalation :
    (∀ (cfg : RunConfig) (env : RunEnv) (k : Nat) (pre : String),
      ∃ p, take_screenshot cfg env false k pre = .ok p)
    ∧ (∀ (cfg : RunConfig) (env : RunEnv) (rows : List StyleRow)
        (j : Nat) (bj : Bool) (ej m : String),
      env.browserStartError = none →
      step_login env.login cfg.salonInfo = .ok () →
      env.datasetLoad = .ok rows →
      step_navigate env = .ok () →
      cfg.startFromRow = 0 →
      ∀ hj : j < rows.length,
      (∀ i r, rows[i]? = some r → i < j →
        processRow cfg env i r = (true, .ok ())) →
      processRow cfg env j (rows.get ⟨j, hj⟩) = (bj, .error ej) →
      env.screenshotError 0 = some m →
      env.screenshotError 1 = none →
      (∀ cb n c t, env.callback = some cb → cb n c t = true) →
      (run cfg env).result = .ok ⟨false, rows.length, j, 0,
        [.critical m (cfg.screenshotDir ++ "/" ++ "critical_error" ++ "_"
          ++ env.timestamp 1 ++ ".png")]⟩)
    ∧ (∀ (cfg : RunConfig) (env : RunEnv) (rows : List StyleRow)
        (j : Nat) (bj : Bool) (ej m m2 : String),
      env.browserStartError = none →
      step_login env.login cfg.salonInfo = .ok () →
      env.datasetLoad = .ok rows →
      step_navigate env = .ok () →
      cfg.startFromRow = 0 →
      ∀ hj : j < rows.length,
      (∀ i r, rows[i]? = some r → i < j →
        processRow cfg env i r = (true, .ok ())) →
      processRow cfg env j (rows.get ⟨j, hj⟩) = (bj, .error ej) →
      env.screenshotError 0 = some m →
      env.screenshotError 1 = some m2 →
      (∀ cb n c t, env.callback = some cb → cb n c t = true) →
      (run cfg env).result = .error m2) := by
  refine ⟨?_, ?_, ?_⟩
  · intro cfg env k pre
    exact ⟨_, take_screenshot_pageDead cfg env k pre⟩
  · intro cfg env rows j bj ej m hb hl hds hnav hk hj hrowsA hrowj hs0
      hs1 hcb
    have hsplit : rows = rows.take j
        ++ rows.get ⟨j, hj⟩ :: rows.drop (j + 1) := by
      conv_lhs => rw [← List.take_append_drop j rows]
      rw [List.drop_eq_getElem_cons hj]
      simp [List.get_eq_getElem]
    have hlenA : (rows.take j).length = j := by
      simp [List.length_take]
      omega
    have hrowsA2 : ∀ i r, (rows.take j)[i]? = some r →
        processRow cfg env (0 + i) r = (true, .ok ()) := by
      intro i r h
      have hij : i < j := by
        by_contra hge
        have hnone : (rows.take j)[i]? = none := by
          apply List.getElem?_eq_none
          omega
        rw [hnone] at h
        cases h
      rw [List.getElem?_take, if_pos hij] at h
      simpa using hrowsA i r h hij
    rcases runLoop_badShot_seg cfg env rows.length (rows.take j)
        (rows.get ⟨j, hj⟩) (rows.drop (j + 1)) j bj ej m hlenA hrowsA2
        hrowj hs0 hcb with ⟨st, hloop, hc, hf, he, hsh⟩
    have hloop2 := (congrArg
      (fun l => runLoop cfg env true rows.length l 0 initSt) hsplit).trans
      hloop
    rw [run_entersLoop cfg env rows hb hl hds hnav, hk]
    simp only [List.drop_zero]
    rw [hloop2]
    dsimp only
    rw [fatalExit_noError cfg env m rows.length st (by rw [hsh]; exact hs1)]
    dsimp only
    rw [hc, hf, he, hsh]
    simp
  · intro cfg env rows j bj ej m m2 hb hl hds hnav hk hj hrowsA hrowj hs0
      hs1 hcb
    have hsplit : rows = rows.take j
        ++ rows.get ⟨j, hj⟩ :: rows.drop (j + 1) := by
      conv_lhs => rw [← List.take_append_drop j rows]
      rw [List.drop_eq_getElem_cons hj]
      simp [List.get_eq_getElem]
    have hlenA : (rows.take j).length = j := by
      simp [List.length_take]
      omega
    have hrowsA2 : ∀ i r, (rows.take j)[i]? = some r →
        processRow cfg env (0 + i) r = (true, .ok ()) := by
      intro i r h
      have hij : i < j := by
        by_contra hge
        have hnone : (rows.take j)[i]? = none := by
          apply List.getElem?_eq_none
          omega
        rw [hnone] at h
        cases h
      rw [List.getElem?_take, if_pos hij] at h
      simpa using hrowsA i r h hij
    rcases runLoop_badShot_seg cfg env rows.length (rows.take j)
        (rows.get ⟨j, hj⟩) (rows.drop (j + 1)) j bj ej m hlenA hrowsA2
        hrowj hs0 hcb with ⟨st, hloop, hc, hf, he, hsh⟩
    have hloop2 := (congrArg
      (fun l => runLoop cfg env true rows.length l 0 initSt) hsplit).trans
      hloop
    rw [run_entersLoop cfg env rows hb hl hds hnav, hk]
    simp only [List.drop_zero]
    rw [hloop2]
    dsimp only
    rw [fatalExit_shotFail cfg env m rows.length st m2
      (by rw [hsh]; exact hs1)]

/-- C8 (witness): the amended theorem applied to `envC8` (row
screenshot fails, critical one succeeds), `envC8both` (both fail) and
a dead-page capture. -/
theorem C8_witness :
    (∃ p, take_screenshot cfg0 envOk false 0 "critical_error" = .ok p)
    ∧ (run cfg0 envC8).result = .ok ⟨false, 1, 0, 0,
        [.critical "Page crashed" "shots/critical_error_T1.png"]⟩
    ∧ (run cfg0 envC8both).result = .error "Disk full" :=
  ⟨C8_screenshot_escalation.1 cfg0 envOk 0 "critical_error",
   C8_screenshot_escalation.2.1 cfg0 envC8 rowsC8 0 false
     "Image not found: img/a.jpg" "Page crashed" rfl (by rfl) rfl (by rfl)
     rfl (by decide) (by intro i r h hij; omega) (by rfl) rfl rfl
     (fun cb n c t h => Option.noConfusion h),
   C8_screenshot_escalation.2.2 cfg0 envC8both rowsC8 0 false
     "Image not found: img/a.jpg" "Page crashed" "Disk full" rfl (by rfl)
     rfl (by rfl) rfl (by decide) (by intro i r h hij; omega) (by rfl)
     rfl rfl (fun cb n c t h => Option.noConfusion h)⟩

end SalonBoard
